import Mathlib

/-!
# API-GIOS: the controller `MainWindow` (mainwindow.h / mainwindow.cpp)

A shallow embedding of the data-orchestration logic of the air-quality
application: the station catalog and its `isSearched` flags, the city search
with its nearest-station fallback, the sensor cache, and the archive of saved
station snapshots.

Conventions of the embedding

* `QString` is `String`; `QString::number`, the date formats and the
  expansions of `QString::arg` are written out as concatenations.
* `double` is modelled by its finite values, as rational numbers (`Double`).
  `std::numeric_limits<double>::max()` is the constant `DBL_MAX`.
* Qt library functions whose tables are outside the repository are parameters:
  `toLower : QString → QString` (Unicode case mapping of `QString::toLower`)
  and `distanceTo : QGeoCoordinate → QGeoCoordinate → Double`
  (`QGeoCoordinate::distanceTo`).
* `QList<Station*>` is a `List Station` of the pointees. The range-for loops
  iterate over the pointer list, which no loop body changes; the only field a
  body mutates is `m_isSearched`, and no body reads it back, so iterating
  over the list of pointees as it stands at loop entry is the same traversal.
* The `QVariantList` and `QVariantMap` members are typed by the shapes the
  code stores in them: `m_sensors` lists pairs of `sensorId` and `paramName`;
  `m_sensorData` maps `QString::number(sensorId)` to a variant that is invalid
  (default-constructed) or a list of data points, each a `date` and a `value`
  that is null or a double. A `QMap` is an association list in key order
  (the order of code points).
* A finished network request (`QNetworkReply`) is given by what the slot
  reads from it: a transport error, or the JSON of the body seen through the
  accessors the slot applies (`toInt`, `toString`, `toDouble`, `toVariant`).
* Qt signals (`emit ...`) and `deleteLater` only notify the user interface
  and are not part of the state.
* The archive directory is a finite map from file names to file contents,
  listed in name order; a file is unreadable, not a JSON object, or a JSON
  object seen through the accessors the code applies to it.
-/

namespace ApiGios

/-! ## Basic Qt value types -/

/-- A `QString`. -/
abbrev QString := String

/-- The finite values of a C++ `double`. -/
abbrev Double := ℚ

/-- The constant `std::numeric_limits<double>::max()`, that is `(2^53 - 1) * 2^971`. -/
def DBL_MAX : Double := 179769313486231570814527423731704356798070567525844996598917476803157260780028538760589558632766878171540458953514382464234321326889464182768467546703537516986049910576551282076245490090389328944075868508455133942304583236903222948165808559332123348274797826204144723168738177180919299881250404026184124858368

/-- The value `QGeoCoordinate(latitude, longitude)`, given by the two doubles
it is constructed from. -/
structure QGeoCoordinate where
  latitude : Double
  longitude : Double
deriving DecidableEq, Repr

/-- The predicate `QChar::isSpace`: the ASCII white space U+0009..U+000D and
U+0020, then U+0085, U+00A0 and the Unicode separator categories Zs, Zl, Zp. -/
def QChar.isSpace (c : Char) : Bool :=
  let n := c.toNat
  n == 32 || (9 ≤ n && n ≤ 13) || n == 0x85 || n == 0xA0 || n == 0x1680 ||
    (0x2000 ≤ n && n ≤ 0x200A) || n == 0x2028 || n == 0x2029 || n == 0x202F ||
    n == 0x205F || n == 0x3000

/-- The scan behind `QString::simplified`. `started` says that a non-space
character has been copied already, `pending` that a run of white space has
been seen since then (it becomes one space when another character follows). -/
def QString.simplifiedAux : Bool → Bool → List Char → List Char
  | _, _, [] => []
  | started, pending, c :: cs =>
    if QChar.isSpace c then QString.simplifiedAux started started cs
    else if pending then Char.ofNat 32 :: c :: QString.simplifiedAux true false cs
    else c :: QString.simplifiedAux true false cs

/-- The function `QString::simplified`: white space removed from both ends and
every internal run of white space replaced by a single space. -/
def QString.simplified (s : QString) : QString :=
  String.mk (QString.simplifiedAux false false s.data)

/-- A lower-casing of the ASCII letters, an instance of the `toLower` parameter. -/
def asciiToLower (s : QString) : QString :=
  String.mk (s.data.map Char.toLower)

/-- The decimal digit `n % 10` as a character. -/
def digitChar (n : Nat) : Char :=
  match n % 10 with
  | 0 => '0'
  | 1 => '1'
  | 2 => '2'
  | 3 => '3'
  | 4 => '4'
  | 5 => '5'
  | 6 => '6'
  | 7 => '7'
  | 8 => '8'
  | _ => '9'

/-- Decimal digits of `n`, most significant first, in front of `acc`. -/
def natDigits : Nat → Nat → List Char → List Char
  | 0, n, acc => digitChar n :: acc
  | fuel + 1, n, acc =>
    if n / 10 = 0 then digitChar n :: acc
    else natDigits fuel (n / 10) (digitChar n :: acc)

/-- The function `QString::number(int)`: decimal, with a minus sign when negative. -/
def QString.number (i : Int) : QString :=
  match i with
  | Int.ofNat n => String.mk (natDigits n n [])
  | Int.negSucc n => String.mk ('-' :: natDigits (n + 1) (n + 1) [])

/-! ## Station (mainwindow.h) -/

/-- The class `Station`: six constant properties and the mutable flag `isSearched`. -/
structure Station where
  stationId : Int
  stationName : QString
  cityName : QString
  address : QString
  lat : Double
  lon : Double
  isSearched : Bool
deriving DecidableEq, Repr

/-- The method `Station::setIsSearched`. -/
def Station.setIsSearched (s : Station) (searched : Bool) : Station :=
  if s.isSearched != searched then { s with isSearched := searched } else s

/-! ## Sensor data and archive records -/

/-- One sensor descriptor of `m_sensors`: the map with keys `sensorId`, `paramName`. -/
structure SensorInfo where
  sensorId : Int
  paramName : QString
deriving DecidableEq, Repr

/-- One data point of a sensor: the map with keys `date` and `value`; the
value is `none` for a null variant (a gap reported by the remote source). -/
structure Measurement where
  date : QString
  value : Option Double
deriving DecidableEq, Repr

/-- The variants stored in `m_sensorData`: a default-constructed (invalid)
variant, or a list of data points. -/
inductive QVariant where
  | invalid
  | list (l : List Measurement)
deriving DecidableEq, Repr

/-- The conversion `QVariant::toList`: an invalid variant gives the empty list. -/
def QVariant.toList : QVariant → List Measurement
  | QVariant.invalid => []
  | QVariant.list l => l

/-- The conversion `QVariant::toDouble` on a measurement value: null gives `0.0`. -/
def toDouble : Option Double → Double
  | none => 0
  | some d => d

/-- A `QMap<QString, V>`: entries kept in key order, one entry per key. -/
abbrev QMap (V : Type) := List (QString × V)

/-- The lookup `QMap::value` / `QMap::find`. -/
def QMap.value {V : Type} (m : QMap V) (key : QString) : Option V :=
  match m with
  | [] => none
  | (k, v) :: rest => if k = key then some v else QMap.value rest key

/-- The test `QMap::contains`. -/
def QMap.contains {V : Type} (m : QMap V) (key : QString) : Bool :=
  (QMap.value m key).isSome

/-- The assignment `m[key] = v` (`QMap::insert`): replaces the entry of `key`
or adds one at its place in key order. -/
def QMap.insert {V : Type} (m : QMap V) (key : QString) (v : V) : QMap V :=
  match m with
  | [] => [(key, v)]
  | (k, w) :: rest =>
    if key.data < k.data then (key, v) :: (k, w) :: rest
    else if k = key then (key, v) :: rest
    else (k, w) :: QMap.insert rest key v

/-- The removal `QMap::remove`. -/
def QMap.remove {V : Type} (m : QMap V) (key : QString) : QMap V :=
  m.filter (fun e => e.1 != key)

/-! ## The controller state (mainwindow.h, private members) -/

/-- One archive summary of `m_archivedStations`. -/
structure ArchivedStation where
  stationId : Int
  cityName : QString
  address : QString
  saveDate : QString
deriving DecidableEq, Repr

/-- The data members of `MainWindow` (the network manager apart). -/
structure MainWindow where
  m_mapCenter : QGeoCoordinate
  m_stations : List Station
  m_allStations : List Station
  m_sensors : List SensorInfo
  m_sensorData : QMap QVariant
  m_status : QString
  m_archivedStations : List ArchivedStation
deriving DecidableEq, Repr

/-- The slot `MainWindow::updateStationSearchStatus`. -/
def updateStationSearchStatus (w : MainWindow) (stationId : Int) (isSearched : Bool) :
    MainWindow :=
  { w with
    m_allStations := w.m_allStations.map (fun station =>
      if station.stationId = stationId then station.setIsSearched isSearched else station) }

/-! ## City search (`MainWindow::onGeocodeReply`) -/

/-- The finished geocoding request as `onGeocodeReply` reads it: a network
error with its `errorString`, or the array `doc.array()` of the reply body
(empty when the body is not a JSON array), each element given by the doubles
read from its `lat` and `lon` strings. -/
inductive GeocodeReply where
  | error (errorString : QString)
  | results (rs : List (Double × Double))
deriving DecidableEq, Repr

/-- The copy `new Station(..., true, this)` appended to `m_stations`. -/
def searchedStation (station : Station) : Station :=
  { stationId := station.stationId
    stationName := station.stationName
    cityName := station.cityName
    address := station.address
    lat := station.lat
    lon := station.lon
    isSearched := true }

/-- The loop of lines 401-417: the stations of the searched city are copied
to `m_stations` and flagged in the catalog. -/
def exactMatchLoop (toLower : QString → QString) (normalizedSearchedCity : QString) :
    List Station → MainWindow → MainWindow
  | [], w => w
  | station :: rest, w =>
    let stationCity := QString.simplified (toLower station.cityName)
    if stationCity = normalizedSearchedCity then
      exactMatchLoop toLower normalizedSearchedCity rest
        (updateStationSearchStatus
          { w with m_stations := w.m_stations ++ [searchedStation station] }
          station.stationId true)
    else
      exactMatchLoop toLower normalizedSearchedCity rest w

/-- The loop of lines 425-432 on its two variables `closestStation` and
`minDistance`. -/
def closestLoop (distanceTo : QGeoCoordinate → QGeoCoordinate → Double)
    (cityCoord : QGeoCoordinate) :
    List Station → Option Station × Double → Option Station × Double
  | [], acc => acc
  | station :: rest, (closestStation, minDistance) =>
    let stationCoord : QGeoCoordinate := ⟨station.lat, station.lon⟩
    let distance := distanceTo cityCoord stationCoord
    if distance < minDistance then
      closestLoop distanceTo cityCoord rest (some station, distance)
    else
      closestLoop distanceTo cityCoord rest (closestStation, minDistance)

/-- The nearest-station scan of lines 421-432: `closestStation` after the loop. -/
def closestStation (distanceTo : QGeoCoordinate → QGeoCoordinate → Double)
    (cityCoord : QGeoCoordinate) (allStations : List Station) : Option Station :=
  (closestLoop distanceTo cityCoord allStations (none, DBL_MAX)).1

/-- The status text of line 457, the two `arg` calls expanded. -/
def foundMessage (count : Nat) (searchedCity : QString) : QString :=
  "Znaleziono " ++ QString.number (Int.ofNat count) ++ " stacji w " ++ searchedCity ++ "."

/-- The status text of line 452, the two-argument `arg` call expanded. -/
def nearestMessage (searchedCity closestCity : QString) : QString :=
  "Nie znaleziono stacji w " ++ searchedCity ++ ". Najbliższa stacja znajduje się w " ++
    closestCity ++ "."

/-- The status text of line 454. -/
def notFoundMessage (searchedCity : QString) : QString :=
  "Nie znaleziono stacji w " ++ searchedCity ++ "."

/-- The slot `MainWindow::onGeocodeReply`. -/
def onGeocodeReply (toLower : QString → QString)
    (distanceTo : QGeoCoordinate → QGeoCoordinate → Double)
    (w : MainWindow) (reply : GeocodeReply) (searchedCity : QString) : MainWindow :=
  match reply with
  | GeocodeReply.error errorString =>
    { w with m_status := "Błąd wyszukiwania: " ++ errorString }
  | GeocodeReply.results [] =>
    { w with m_status := "Nie znaleziono miasta." }
  | GeocodeReply.results ((lat, lon) :: _) =>
    let w1 : MainWindow :=
      { w with
        m_mapCenter := ⟨lat, lon⟩
        m_stations := []
        m_allStations := w.m_allStations.map (fun station => station.setIsSearched false) }
    let normalizedSearchedCity := QString.simplified (toLower searchedCity)
    let w2 := exactMatchLoop toLower normalizedSearchedCity w1.m_allStations w1
    if w2.m_stations.isEmpty then
      let cityCoord : QGeoCoordinate := ⟨lat, lon⟩
      match closestStation distanceTo cityCoord w2.m_allStations with
      | some closest =>
        let w3 := updateStationSearchStatus
          { w2 with m_stations := w2.m_stations ++ [searchedStation closest] }
          closest.stationId true
        { w3 with
          m_mapCenter := ⟨closest.lat, closest.lon⟩
          m_status := nearestMessage searchedCity closest.cityName }
      | none =>
        { w2 with m_status := notFoundMessage searchedCity }
    else
      { w2 with m_status := foundMessage w2.m_stations.length searchedCity }

/-! ## The archive (`saveStationData`, `loadArchivedStations`, `loadArchivedStationData`) -/

/-- The value `m[key]` of the non-const `QMap::operator[]` together with the
map it leaves: a missing key is inserted with the default-constructed value. -/
def QMap.subscript {V : Type} (m : QMap V) (key : QString) (dflt : V) : V × QMap V :=
  match QMap.value m key with
  | some v => (v, m)
  | none => (dflt, QMap.insert m key dflt)

/-- A `QDateTime` in local time, as `QDateTime::currentDateTime()` returns it. -/
structure QDateTime where
  year : Nat
  month : Nat
  day : Nat
  hour : Nat
  minute : Nat
  second : Nat
  msec : Nat
deriving DecidableEq, Repr

/-- Two decimal digits (the fields `MM`, `dd`, `HH`, `mm`, `ss` of a date format). -/
def pad2 (n : Nat) : List Char :=
  [digitChar (n / 10), digitChar n]

/-- Four decimal digits (the field `yyyy` of a date format). -/
def pad4 (n : Nat) : List Char :=
  [digitChar (n / 1000), digitChar (n / 100), digitChar (n / 10), digitChar n]

/-- The text `toString(Qt::ISODate)` of a local time: `yyyy-MM-ddTHH:mm:ss`. -/
def QDateTime.toISODate (t : QDateTime) : QString :=
  String.mk (pad4 t.year ++ '-' :: pad2 t.month ++ '-' :: pad2 t.day ++ 'T' ::
    pad2 t.hour ++ ':' :: pad2 t.minute ++ ':' :: pad2 t.second)

/-- The text `toString("yyyyMMdd_HHmmss")`. -/
def QDateTime.toFileStamp (t : QDateTime) : QString :=
  String.mk (pad4 t.year ++ pad2 t.month ++ pad2 t.day ++ '_' ::
    pad2 t.hour ++ pad2 t.minute ++ pad2 t.second)

/-- One entry of a `measurements` array of an archive file. -/
structure MeasurementRecord where
  date : QString
  value : Double
deriving DecidableEq, Repr

/-- One entry of the `sensors` array of an archive file. -/
structure SensorRecord where
  sensorId : Int
  paramName : QString
  measurements : List MeasurementRecord
deriving DecidableEq, Repr

/-- The JSON object of an archive file, read through the accessors of the
code (`toInt`, `toString`, `toDouble`, `toArray`, which default a missing or
ill-typed key to zero, the empty string or the empty array). -/
structure ArchiveRecord where
  stationId : Int
  stationName : QString
  cityName : QString
  address : QString
  latitude : Double
  longitude : Double
  saveDate : QString
  sensors : List SensorRecord
deriving DecidableEq, Repr

/-- What reading a file of the archive directory gives: `QFile::open` fails,
or the bytes are not a JSON object, or they are one. -/
inductive FileContent where
  | unreadable
  | notObject
  | object (jsonObj : ArchiveRecord)
deriving DecidableEq, Repr

/-- The files of the archive directory by name, in name order. -/
abbrev ArchiveDir := QMap FileContent

/-- The path of the archive directory (lines 206, 239, 280). -/
def archivePath : QString :=
  "C:/Users/max08/OneDrive/Pulpit/AirAPI/build/Desktop_Qt_6_8_3_MinGW_64_bit-Release"

/-- The path `dir.filePath(name)` of a file of the archive directory. -/
def filePath (name : QString) : QString :=
  archivePath ++ "/" ++ name

/-- Whether a file name passes a name filter of the shape `before*after`
(`QDir::setNameFilters`; letters compared without regard to ASCII case). -/
def nameMatches (before after name : QString) : Bool :=
  let b := before.data.map Char.toLower
  let a := after.data.map Char.toLower
  let n := name.data.map Char.toLower
  b.isPrefixOf n && a.isSuffixOf (n.drop b.length)

/-- The listing `dir.entryInfoList()` under the name filter `before*after`. -/
def entryInfoList (dir : ArchiveDir) (before after : QString) : List (QString × FileContent) :=
  dir.filter (fun e => nameMatches before after e.1)

/-- The loop of `loadArchivedStations` (lines 244-266). -/
def archivedStationsLoop : List (QString × FileContent) → List ArchivedStation →
    List ArchivedStation
  | [], acc => acc
  | (_, FileContent.unreadable) :: rest, acc => archivedStationsLoop rest acc
  | (_, FileContent.notObject) :: rest, acc => archivedStationsLoop rest acc
  | (_, FileContent.object jsonObj) :: rest, acc =>
    archivedStationsLoop rest (acc ++
      [{ stationId := jsonObj.stationId, cityName := jsonObj.cityName,
         address := jsonObj.address, saveDate := jsonObj.saveDate }])

/-- The method `MainWindow::loadArchivedStations`. -/
def loadArchivedStations (w : MainWindow) (dir : ArchiveDir) : MainWindow :=
  { w with m_archivedStations := archivedStationsLoop (entryInfoList dir "station_" ".json") [] }

/-- The inner loop of `saveStationData` (lines 186-192): one JSON measurement
per data point, its value converted with `toDouble`. -/
def measurementsArray (data : List Measurement) : List MeasurementRecord :=
  data.map (fun dataPoint => { date := dataPoint.date, value := toDouble dataPoint.value })

/-- The loop of `saveStationData` over `m_sensors` (lines 174-195), on the
sensor cache (which `operator[]` may extend) and the array built so far. -/
def saveSensorsLoop : List SensorInfo → QMap QVariant → List SensorRecord →
    List SensorRecord × QMap QVariant
  | [], sensorData, sensorsArray => (sensorsArray, sensorData)
  | sensorInfo :: rest, sensorData, sensorsArray =>
    let entry := QMap.subscript sensorData (QString.number sensorInfo.sensorId) QVariant.invalid
    let data := entry.1.toList
    saveSensorsLoop rest entry.2 (sensorsArray ++
      [{ sensorId := sensorInfo.sensorId, paramName := sensorInfo.paramName,
         measurements := measurementsArray data }])

/-- The file name of line 203: `station_(id)_(yyyyMMdd_HHmmss).json`. -/
def archiveFileName (stationId : Int) (now : QDateTime) : QString :=
  "station_" ++ QString.number stationId ++ "_" ++ now.toFileStamp ++ ".json"

/-- The slot `MainWindow::saveStationData` on the controller state and the
archive directory. `now1` and `now2` are the two readings of the clock
(lines 170 and 202), `openOk` tells whether `file.open(WriteOnly)` succeeds. -/
def saveStationData (w : MainWindow) (dir : ArchiveDir) (now1 now2 : QDateTime)
    (openOk : Bool) (stationId : Int) (cityName address : QString) : MainWindow × ArchiveDir :=
  match w.m_allStations.find? (fun s => s.stationId == stationId) with
  | none =>
    ({ w with m_status := "Błąd: Stacja o ID " ++ QString.number stationId ++
        " nie znaleziona." }, dir)
  | some station =>
    let saved := saveSensorsLoop w.m_sensors w.m_sensorData []
    let jsonObj : ArchiveRecord :=
      { stationId := stationId
        stationName := station.stationName
        cityName := cityName
        address := address
        latitude := station.lat
        longitude := station.lon
        saveDate := now1.toISODate
        sensors := saved.1 }
    let filename := archiveFileName stationId now2
    let w1 : MainWindow := { w with m_sensorData := saved.2 }
    if openOk then
      let dir1 := QMap.insert dir filename (FileContent.object jsonObj)
      (loadArchivedStations
        { w1 with m_status := "Dane zapisano do pliku: " ++ filePath filename } dir1, dir1)
    else
      ({ w1 with m_status := "Błąd: Nie można otworzyć pliku do zapisu: " ++
          filePath filename }, dir)

/-- The inner loop of `loadArchivedStationData` (lines 332-338). -/
def sensorDataList (measurements : List MeasurementRecord) : List Measurement :=
  measurements.map (fun measurementObj =>
    { date := measurementObj.date, value := some measurementObj.value })

/-- The loop of `loadArchivedStationData` over the `sensors` array (lines
322-340) on its variables `newSensors` and `newSensorData`. -/
def loadSensorsLoop : List SensorRecord → List SensorInfo → QMap QVariant →
    List SensorInfo × QMap QVariant
  | [], newSensors, newSensorData => (newSensors, newSensorData)
  | sensorObj :: rest, newSensors, newSensorData =>
    loadSensorsLoop rest
      (newSensors ++ [{ sensorId := sensorObj.sensorId, paramName := sensorObj.paramName }])
      (QMap.insert newSensorData (QString.number sensorObj.sensorId)
        (QVariant.list (sensorDataList sensorObj.measurements)))

/-- The loop of `loadArchivedStationData` over the files of the station
(lines 285-356): an unreadable or malformed file sets a status and is
skipped, a file with another `saveDate` is skipped, the first file with the
requested `saveDate` is loaded and ends the loop. -/
def loadArchivedLoop (stationId : Int) (saveDate : QString) :
    List (QString × FileContent) → MainWindow → MainWindow
  | [], w => w
  | (name, FileContent.unreadable) :: rest, w =>
    loadArchivedLoop stationId saveDate rest
      { w with m_status := "Błąd: Nie można otworzyć pliku: " ++ filePath name }
  | (name, FileContent.notObject) :: rest, w =>
    loadArchivedLoop stationId saveDate rest
      { w with m_status := "Błąd: Nieprawidłowy format JSON w pliku: " ++ filePath name }
  | (_, FileContent.object jsonObj) :: rest, w =>
    if jsonObj.saveDate != saveDate then
      loadArchivedLoop stationId saveDate rest w
    else
      let loaded := loadSensorsLoop jsonObj.sensors [] []
      { w with
        m_mapCenter := ⟨jsonObj.latitude, jsonObj.longitude⟩
        m_sensors := loaded.1
        m_sensorData := loaded.2
        m_status := "Załadowano dane archiwalne dla stacji " ++ QString.number stationId ++
          " z datą " ++ saveDate ++ "." }

/-- The slot `MainWindow::loadArchivedStationData`. -/
def loadArchivedStationData (w : MainWindow) (dir : ArchiveDir) (stationId : Int)
    (saveDate : QString) : MainWindow :=
  loadArchivedLoop stationId saveDate
    (entryInfoList dir ("station_" ++ QString.number stationId ++ "_") ".json") w

/-! ## Catalog load (`MainWindow::onStationsReply`) -/

/-- One element of the station listing, as the accessors of lines 485-491
read it: a field is `none` when the key is missing or its value has another
type (`id`: not a whole number; `gegrLat`, `gegrLon`: not a string that
reads as a number; `cityName` is the `name` of the nested `city` object). -/
structure StationEntry where
  id : Option Int
  stationName : Option QString
  cityName : Option QString
  addressStreet : Option QString
  gegrLat : Option Double
  gegrLon : Option Double
deriving DecidableEq, Repr

/-- The finished station-listing request as `onStationsReply` reads it: a
network error with its `errorString`, or a reply body, which either parses
as a JSON array (`some` of its elements) or does not (`none`). -/
inductive StationsReply where
  | error (errorString : QString)
  | body (doc : Option (List StationEntry))
deriving DecidableEq, Repr

/-- The array `doc.array()`: empty when the document is not a JSON array. -/
def StationsReply.array (doc : Option (List StationEntry)) : List StationEntry :=
  match doc with
  | some stations => stations
  | none => []

/-- The station built from one element of the listing (lines 485-493):
`toInt`, `toString` and `toDouble` default a missing field to `0`, `""`, `0.0`. -/
def stationOfEntry (obj : StationEntry) : Station :=
  { stationId := obj.id.getD 0
    stationName := obj.stationName.getD ""
    cityName := obj.cityName.getD ""
    address := obj.addressStreet.getD ""
    lat := obj.gegrLat.getD 0
    lon := obj.gegrLon.getD 0
    isSearched := false }

/-- The loop of lines 484-494 on the catalog built so far. -/
def stationsLoop : List StationEntry → List Station → List Station
  | [], allStations => allStations
  | obj :: rest, allStations => stationsLoop rest (allStations ++ [stationOfEntry obj])

/-- The slot `MainWindow::onStationsReply`. -/
def onStationsReply (w : MainWindow) (reply : StationsReply) : MainWindow :=
  match reply with
  | StationsReply.error errorString =>
    { w with m_status := "Błąd pobierania stacji: " ++ errorString }
  | StationsReply.body doc =>
    let stations := StationsReply.array doc
    { w with m_allStations := stationsLoop stations [] }

/-! ## The sensor cache (`onSensorDataReply`, `removeSensorData`) -/

/-- The finished measurement request as `onSensorDataReply` reads it: a
network error, or the array `obj["values"].toArray()` of the reply body
(empty when the body has no such array), each element given by the string
read from its `date` and the variant of its `value` (`none` when null). -/
inductive SensorDataReply where
  | error
  | values (vs : List Measurement)
deriving DecidableEq, Repr

/-- The loop of lines 555-563: one data point per element of the array. -/
def sensorDataLoop : List Measurement → List Measurement → List Measurement
  | [], sensorDataList => sensorDataList
  | dataPoint :: rest, sensorDataList =>
    sensorDataLoop rest
      (sensorDataList ++ [{ date := dataPoint.date, value := dataPoint.value }])

/-- The slot `MainWindow::onSensorDataReply`. -/
def onSensorDataReply (w : MainWindow) (reply : SensorDataReply) (sensorId : Int) :
    MainWindow :=
  match reply with
  | SensorDataReply.error =>
    { w with m_sensorData := QMap.remove w.m_sensorData (QString.number sensorId) }
  | SensorDataReply.values vs =>
    { w with
      m_sensorData := QMap.insert w.m_sensorData (QString.number sensorId)
        (QVariant.list (sensorDataLoop vs [])) }

/-- The slot `MainWindow::removeSensorData`. -/
def removeSensorData (w : MainWindow) (sensorId : Int) : MainWindow :=
  { w with m_sensorData := QMap.remove w.m_sensorData (QString.number sensorId) }

/-! ## Definitions used in the statements and their examples -/

/-- The catalog after flagging every station whose id is in `ids`. -/
def flagIds (ids : List Int) (s : Station) : Station :=
  if s.stationId ∈ ids then { s with isSearched := true } else s

/-- The test of line 403 on a catalog station, as a Boolean. -/
def inSearchedCity (toLower : QString → QString) (searchedCity : QString) (s : Station) : Bool :=
  decide (QString.simplified (toLower s.cityName) = QString.simplified (toLower searchedCity))

/-- The state after the reset and the exact-match loop (lines 389-417). -/
def afterExactMatch (toLower : QString → QString) (w : MainWindow) (lat lon : Double)
    (searchedCity : QString) : MainWindow :=
  exactMatchLoop toLower (QString.simplified (toLower searchedCity))
    (w.m_allStations.map (fun station => station.setIsSearched false))
    { w with
      m_mapCenter := ⟨lat, lon⟩
      m_stations := []
      m_allStations := w.m_allStations.map (fun station => station.setIsSearched false) }

/-- The distance the scan computes for a station (lines 426-427). -/
def stationDistance (distanceTo : QGeoCoordinate → QGeoCoordinate → Double)
    (cityCoord : QGeoCoordinate) (s : Station) : Double :=
  distanceTo cityCoord ⟨s.lat, s.lon⟩

/-- An example distance, an instance of the `distanceTo` parameter: the sum
of the differences of the numerators of the coordinates (on whole degrees,
the sum of the coordinate differences). -/
def exampleDistance (a b : QGeoCoordinate) : Double :=
  ((Int.natAbs (a.latitude.num - b.latitude.num) +
    Int.natAbs (a.longitude.num - b.longitude.num) : Nat) : ℚ)

/-- An example catalog: two stations in Warsaw, one in Krakow (flagged by an
earlier search). -/
def exampleCatalog : List Station :=
  [ { stationId := 1, stationName := "Marszalkowska", cityName := "Warsaw",
      address := "ul. Marszalkowska", lat := 52, lon := 21, isSearched := false },
    { stationId := 2, stationName := "Bujaka", cityName := "Krakow",
      address := "ul. Bujaka", lat := 50, lon := 20, isSearched := true },
    { stationId := 3, stationName := "Ursynow", cityName := "warsaw",
      address := "ul. Wokalna", lat := 53, lon := 21, isSearched := false } ]

/-- An example controller state over `exampleCatalog`. -/
def exampleWindow : MainWindow :=
  { m_mapCenter := ⟨52, 17⟩
    m_stations := []
    m_allStations := exampleCatalog
    m_sensors := []
    m_sensorData := []
    m_status := "Wprowadź nazwę miasta i kliknij Szukaj"
    m_archivedStations := [] }

/-- The catalog of the tie-break example: the stations at indices 1 and 2 are
both at distance 1 from the point (50, 20), the station at index 0 farther. -/
def tieCatalog : List Station :=
  [ { stationId := 7, stationName := "A", cityName := "Lodz", address := "",
      lat := 52, lon := 20, isSearched := false },
    { stationId := 8, stationName := "B", cityName := "Krakow", address := "",
      lat := 50, lon := 21, isSearched := false },
    { stationId := 9, stationName := "C", cityName := "Skawina", address := "",
      lat := 50, lon := 19, isSearched := false } ]

/-- The data points the cache holds under a key: `m_sensorData[key].toList()`,
empty when the key is absent or holds an invalid variant. -/
def cachedData (sensorData : QMap QVariant) (key : QString) : List Measurement :=
  match QMap.value sensorData key with
  | some v => v.toList
  | none => []

/-- The JSON object `saveStationData` builds (lines 163-196) for a station
found in the catalog. -/
def savedRecord (w : MainWindow) (station : Station) (now1 : QDateTime) (stationId : Int)
    (cityName address : QString) : ArchiveRecord :=
  { stationId := stationId
    stationName := station.stationName
    cityName := cityName
    address := address
    latitude := station.lat
    longitude := station.lon
    saveDate := now1.toISODate
    sensors := (saveSensorsLoop w.m_sensors w.m_sensorData []).1 }

/-- An example controller state over `tieCatalog`. -/
def tieWindow : MainWindow :=
  { exampleWindow with m_allStations := tieCatalog }

/-- A clock reading: 21 April 2025, 12:00:00.100. -/
def noon : QDateTime :=
  { year := 2025, month := 4, day := 21, hour := 12, minute := 0, second := 0, msec := 100 }

/-- A clock reading within the same second as `noon`: 12:00:00.900. -/
def noonLater : QDateTime :=
  { year := 2025, month := 4, day := 21, hour := 12, minute := 0, second := 0, msec := 900 }

/-- An example state: sensor 42 of the selected station has two cached data
points, the second one a gap (null value). -/
def gapWindow : MainWindow :=
  { exampleWindow with
    m_sensors := [{ sensorId := 42, paramName := "PM10" }]
    m_sensorData :=
      [("42", QVariant.list
        [{ date := "2025-04-21 10:00:00", value := some 12 },
         { date := "2025-04-21 09:00:00", value := none }])] }

/-- An example state: the sensor list is empty (the sensors of the selected
station could not be fetched) while the cache still holds data of sensor 42. -/
def staleWindow : MainWindow :=
  { exampleWindow with
    m_sensors := []
    m_sensorData :=
      [("42", QVariant.list [{ date := "2025-04-21 10:00:00", value := some 12 }])] }

/-- The representation invariant of a `QMap`: keys strictly increasing. -/
def QMap.WellFormed {V : Type} (m : QMap V) : Prop :=
  m.Pairwise (fun x y => x.1.data < y.1.data)

/-- The state the constructor of `MainWindow` leaves (lines 29-34), with an
empty archive directory. -/
def initialWindow : MainWindow :=
  { m_mapCenter := ⟨524064 / 10000, 169252 / 10000⟩
    m_stations := []
    m_allStations := []
    m_sensors := []
    m_sensorData := []
    m_status := "Wprowadź nazwę miasta i kliknij Szukaj"
    m_archivedStations := [] }

/-- An example listing: a complete entry, an entry that has no `id`, and an
entry that has an `id` and nothing else. -/
def exampleListing : List StationEntry :=
  [ { id := some 14, stationName := some "Dzialoszyn", cityName := some "Dzialoszyn",
      addressStreet := some "ul. Bohaterow", gegrLat := some 51, gegrLon := some 15 },
    { id := none, stationName := some "Bez numeru", cityName := some "Poznan",
      addressStreet := none, gegrLat := some 52, gegrLon := some 17 },
    { id := some 16, stationName := none, cityName := none,
      addressStreet := none, gegrLat := none, gegrLon := none } ]

/-- The cache of the unit test `testSensorData`: one entry under the key `test`. -/
def testSensorDataWindow : MainWindow :=
  { exampleWindow with
    m_sensorData := [("test", QVariant.list [{ date := "2025-04-22", value := some 10 }])] }

/-- An example payload of a measurement fetch: two data points, one a gap. -/
def payloadOne : List Measurement :=
  [{ date := "2025-04-21 10:00:00", value := some 12 },
   { date := "2025-04-21 09:00:00", value := none }]

/-- Another example payload of a measurement fetch. -/
def payloadTwo : List Measurement :=
  [{ date := "2025-04-21 11:00:00", value := some 7 }]

/-- The cache entry a finished measurement request leaves under the key of
its sensor: none after an error, the list of the delivered data points
otherwise. -/
def replyEntry : SensorDataReply → Option QVariant
  | SensorDataReply.error => none
  | SensorDataReply.values vs => some (QVariant.list vs)

/-! ## Lemmas on the basic types -/

theorem DBL_MAX_eq : DBL_MAX = (2 ^ 53 - 1) * 2 ^ 971 := by
  norm_num [DBL_MAX]

/-- The value of a digit character. -/
theorem digitChar_toNat (n : Nat) : (digitChar n).toNat = 48 + n % 10 := by
  have h : n % 10 < 10 := Nat.mod_lt _ (by decide)
  unfold digitChar
  generalize n % 10 = k at h
  interval_cases k <;> rfl

theorem natDigits_append : ∀ (fuel n : Nat) (acc : List Char),
    natDigits fuel n acc = natDigits fuel n [] ++ acc := by
  intro fuel
  induction fuel with
  | zero => intro n acc; simp [natDigits]
  | succ fuel ih =>
    intro n acc
    by_cases h : n / 10 = 0
    · simp [natDigits, h]
    · simp only [natDigits, h, if_false]
      rw [ih (n / 10) (digitChar n :: acc), ih (n / 10) [digitChar n]]
      simp

theorem natDigits_value : ∀ (fuel n : Nat), n < 10 ^ (fuel + 1) →
    (natDigits fuel n []).foldl (fun v c => 10 * v + (c.toNat - 48)) 0 = n := by
  intro fuel
  induction fuel with
  | zero =>
    intro n hn
    simp only [natDigits, List.foldl, digitChar_toNat]
    have : n % 10 = n := Nat.mod_eq_of_lt (by simpa using hn)
    omega
  | succ fuel ih =>
    intro n hn
    by_cases h : n / 10 = 0
    · simp only [natDigits, h, if_true, List.foldl, digitChar_toNat]
      have : n < 10 := by omega
      have : n % 10 = n := Nat.mod_eq_of_lt this
      omega
    · simp only [natDigits, h, if_false]
      rw [natDigits_append, List.foldl_append, ih (n / 10) (by
        rw [pow_succ] at hn
        omega)]
      simp only [List.foldl, digitChar_toNat]
      omega

theorem natDigits_digits : ∀ (fuel n : Nat) (c : Char),
    c ∈ natDigits fuel n [] → 48 ≤ c.toNat := by
  intro fuel
  induction fuel with
  | zero =>
    intro n c hc
    simp only [natDigits, List.mem_singleton] at hc
    rw [hc, digitChar_toNat]
    omega
  | succ fuel ih =>
    intro n c hc
    by_cases h : n / 10 = 0
    · simp only [natDigits, h, if_true, List.mem_singleton] at hc
      rw [hc, digitChar_toNat]
      omega
    · simp only [natDigits, h, if_false] at hc
      rw [natDigits_append] at hc
      rcases List.mem_append.mp hc with hc | hc
      · exact ih _ _ hc
      · simp only [List.mem_singleton] at hc
        rw [hc, digitChar_toNat]
        omega

theorem natDigits_self_value (n : Nat) :
    (natDigits n n []).foldl (fun v c => 10 * v + (c.toNat - 48)) 0 = n :=
  natDigits_value n n (lt_of_lt_of_le (Nat.lt_pow_self (by decide : 1 < 10) n)
    (Nat.pow_le_pow_right (by decide) (Nat.le_succ n)))

/-- The text `QString::number` gives determines the number. -/
theorem QString.number_injective : Function.Injective QString.number := by
  intro a b h
  have hd := congrArg String.data h
  cases a with
  | ofNat n =>
    cases b with
    | ofNat m =>
      simp only [QString.number] at hd
      have := congrArg (List.foldl (fun v c => 10 * v + (c.toNat - 48)) 0) hd
      rw [natDigits_self_value, natDigits_self_value] at this
      rw [this]
    | negSucc m =>
      simp only [QString.number] at hd
      have hmem : '-' ∈ natDigits n n [] := by rw [hd]; simp
      have := natDigits_digits _ _ _ hmem
      exact absurd this (by decide)
  | negSucc n =>
    cases b with
    | ofNat m =>
      simp only [QString.number] at hd
      have hmem : '-' ∈ natDigits m m [] := by rw [← hd]; simp
      have := natDigits_digits _ _ _ hmem
      exact absurd this (by decide)
    | negSucc m =>
      simp only [QString.number, List.cons.injEq, true_and] at hd
      have := congrArg (List.foldl (fun v c => 10 * v + (c.toNat - 48)) 0) hd
      rw [natDigits_self_value, natDigits_self_value] at this
      have hnm : n = m := by omega
      rw [hnm]

/-! ## Lemmas on the station flags -/

theorem Station.setIsSearched_eq (s : Station) (b : Bool) :
    s.setIsSearched b = { s with isSearched := b } := by
  unfold Station.setIsSearched
  split
  · rfl
  · rename_i h
    cases s
    simp at h
    simp [h]

theorem Station.setIsSearched_stationId (s : Station) (b : Bool) :
    (s.setIsSearched b).stationId = s.stationId := by
  rw [Station.setIsSearched_eq]

theorem flagIds_nil : flagIds [] = id := by
  funext s
  simp [flagIds]

theorem flagIds_cons (i : Int) (ids : List Int) (s : Station) :
    flagIds ids (if s.stationId = i then s.setIsSearched true else s) = flagIds (i :: ids) s := by
  by_cases h : s.stationId = i
  · by_cases h2 : s.stationId ∈ ids <;>
      simp [flagIds, h, h2, Station.setIsSearched_eq]
  · by_cases h2 : s.stationId ∈ ids <;> simp [flagIds, h, h2]

/-- What the exact-match loop does to a state: the matching stations of the
traversed list are appended to `m_stations` as copies and their ids flagged. -/
theorem exactMatchLoop_eq (toLower : QString → QString) (q : QString) :
    ∀ (l : List Station) (w : MainWindow),
      exactMatchLoop toLower q l w =
        { w with
          m_stations := w.m_stations ++
            (l.filter (fun s => decide (QString.simplified (toLower s.cityName) = q))).map
              searchedStation
          m_allStations := w.m_allStations.map
            (flagIds ((l.filter
              (fun s => decide (QString.simplified (toLower s.cityName) = q))).map
                Station.stationId)) } := by
  intro l
  induction l with
  | nil =>
    intro w
    cases w
    simp [exactMatchLoop, flagIds_nil]
  | cons s rest ih =>
    intro w
    by_cases h : QString.simplified (toLower s.cityName) = q
    · simp only [exactMatchLoop, h, if_true, ih, updateStationSearchStatus]
      cases w
      simp [List.filter_cons, h, flagIds_cons]
    · simp only [exactMatchLoop, h, if_false, ih]
      simp [List.filter_cons, h]

theorem filter_reset (toLower : QString → QString) (q : QString) (l : List Station) :
    (l.map (fun s => s.setIsSearched false)).filter
        (fun s => decide (QString.simplified (toLower s.cityName) = q)) =
      (l.filter (fun s => decide (QString.simplified (toLower s.cityName) = q))).map
        (fun s => s.setIsSearched false) := by
  induction l with
  | nil => rfl
  | cons s rest ih =>
    by_cases h : QString.simplified (toLower s.cityName) = q <;>
      simp [List.filter_cons, Station.setIsSearched_eq, h] <;>
      simpa [Station.setIsSearched_eq] using ih

theorem afterExactMatch_stations (toLower : QString → QString) (w : MainWindow)
    (lat lon : Double) (searchedCity : QString) :
    (afterExactMatch toLower w lat lon searchedCity).m_stations =
      (w.m_allStations.filter (inSearchedCity toLower searchedCity)).map
        (fun s => { s with isSearched := true }) := by
  unfold afterExactMatch
  rw [exactMatchLoop_eq]
  simp only [List.nil_append, filter_reset, List.map_map]
  apply List.map_congr_left
  intro s _
  simp [Function.comp, Station.setIsSearched_eq, searchedStation]

theorem afterExactMatch_allStations (toLower : QString → QString) (w : MainWindow)
    (lat lon : Double) (searchedCity : QString) :
    (afterExactMatch toLower w lat lon searchedCity).m_allStations =
      w.m_allStations.map (fun s =>
        flagIds ((w.m_allStations.filter (inSearchedCity toLower searchedCity)).map
          Station.stationId) { s with isSearched := false }) := by
  unfold afterExactMatch
  rw [exactMatchLoop_eq]
  simp only [filter_reset, List.map_map]
  apply List.map_congr_left
  intro s _
  simp only [Function.comp, Station.setIsSearched_eq]
  congr 1

theorem afterExactMatch_frame (toLower : QString → QString) (w : MainWindow)
    (lat lon : Double) (searchedCity : QString) :
    (afterExactMatch toLower w lat lon searchedCity).m_mapCenter = ⟨lat, lon⟩ ∧
    (afterExactMatch toLower w lat lon searchedCity).m_sensors = w.m_sensors ∧
    (afterExactMatch toLower w lat lon searchedCity).m_sensorData = w.m_sensorData ∧
    (afterExactMatch toLower w lat lon searchedCity).m_status = w.m_status ∧
    (afterExactMatch toLower w lat lon searchedCity).m_archivedStations =
      w.m_archivedStations := by
  unfold afterExactMatch
  rw [exactMatchLoop_eq]
  exact ⟨rfl, rfl, rfl, rfl, rfl⟩

/-- The slot on a reply with at least one result, in terms of the state after
the exact-match loop. -/
theorem onGeocodeReply_results (toLower : QString → QString)
    (distanceTo : QGeoCoordinate → QGeoCoordinate → Double) (w : MainWindow)
    (lat lon : Double) (more : List (Double × Double)) (searchedCity : QString) :
    onGeocodeReply toLower distanceTo w (GeocodeReply.results ((lat, lon) :: more))
        searchedCity =
      if (afterExactMatch toLower w lat lon searchedCity).m_stations.isEmpty then
        match closestStation distanceTo ⟨lat, lon⟩
            (afterExactMatch toLower w lat lon searchedCity).m_allStations with
        | some closest =>
          { updateStationSearchStatus
              { afterExactMatch toLower w lat lon searchedCity with
                m_stations := (afterExactMatch toLower w lat lon searchedCity).m_stations ++
                  [searchedStation closest] }
              closest.stationId true with
            m_mapCenter := ⟨closest.lat, closest.lon⟩
            m_status := nearestMessage searchedCity closest.cityName }
        | none =>
          { afterExactMatch toLower w lat lon searchedCity with
            m_status := notFoundMessage searchedCity }
      else
        { afterExactMatch toLower w lat lon searchedCity with
          m_status := foundMessage
            (afterExactMatch toLower w lat lon searchedCity).m_stations.length searchedCity } := by
  rfl

theorem exists_match_iff (toLower : QString → QString) (w : MainWindow)
    (searchedCity : QString) :
    (∃ s ∈ w.m_allStations, QString.simplified (toLower s.cityName) =
        QString.simplified (toLower searchedCity)) ↔
      w.m_allStations.filter (inSearchedCity toLower searchedCity) ≠ [] := by
  constructor
  · rintro ⟨s, hs, h⟩ hnil
    have : s ∈ w.m_allStations.filter (inSearchedCity toLower searchedCity) :=
      List.mem_filter.mpr ⟨hs, by simp [inSearchedCity, h]⟩
    rw [hnil] at this
    exact List.not_mem_nil _ this
  · intro h
    obtain ⟨s, hs⟩ := List.exists_mem_of_ne_nil _ h
    obtain ⟨h1, h2⟩ := List.mem_filter.mp hs
    exact ⟨s, h1, by simpa [inSearchedCity] using h2⟩

/-- The slot when some station lies in the searched city: the whole resulting state. -/
theorem onGeocodeReply_exact (toLower : QString → QString)
    (distanceTo : QGeoCoordinate → QGeoCoordinate → Double) (w : MainWindow)
    (lat lon : Double) (more : List (Double × Double)) (searchedCity : QString)
    (hmatch : ∃ s ∈ w.m_allStations, QString.simplified (toLower s.cityName) =
      QString.simplified (toLower searchedCity)) :
    onGeocodeReply toLower distanceTo w (GeocodeReply.results ((lat, lon) :: more))
        searchedCity =
      { afterExactMatch toLower w lat lon searchedCity with
        m_status := foundMessage
          (afterExactMatch toLower w lat lon searchedCity).m_stations.length searchedCity } := by
  rw [onGeocodeReply_results]
  have hne := (exists_match_iff toLower w searchedCity).mp hmatch
  have : (afterExactMatch toLower w lat lon searchedCity).m_stations.isEmpty = false := by
    rw [afterExactMatch_stations]
    cases hf : w.m_allStations.filter (inSearchedCity toLower searchedCity) with
    | nil => exact absurd hf hne
    | cons a l => rfl
  simp [this]

/-! ## The nearest-station scan -/

/-- The scan either never updates its variables, every distance being at least
the initial `minDistance`, or stops on the first station of least distance. -/
theorem closestLoop_spec (distanceTo : QGeoCoordinate → QGeoCoordinate → Double)
    (cityCoord : QGeoCoordinate) :
    ∀ (l : List Station) (c : Option Station) (m : Double),
      (closestLoop distanceTo cityCoord l (c, m) = (c, m) ∧
        ∀ s ∈ l, m ≤ stationDistance distanceTo cityCoord s) ∨
      ∃ pre x post, l = pre ++ x :: post ∧
        closestLoop distanceTo cityCoord l (c, m) =
          (some x, stationDistance distanceTo cityCoord x) ∧
        stationDistance distanceTo cityCoord x < m ∧
        (∀ s ∈ pre, stationDistance distanceTo cityCoord x <
          stationDistance distanceTo cityCoord s) ∧
        (∀ s ∈ post, stationDistance distanceTo cityCoord x ≤
          stationDistance distanceTo cityCoord s) := by
  intro l
  induction l with
  | nil =>
    intro c m
    left
    exact ⟨rfl, by simp⟩
  | cons s rest ih =>
    intro c m
    by_cases h : stationDistance distanceTo cityCoord s < m
    · have hstep : closestLoop distanceTo cityCoord (s :: rest) (c, m) =
          closestLoop distanceTo cityCoord rest
            (some s, stationDistance distanceTo cityCoord s) := by
        simp only [closestLoop]
        exact if_pos h
      right
      rcases ih (some s) (stationDistance distanceTo cityCoord s) with
        ⟨heq, hall⟩ | ⟨pre, x, post, hl, heq, hlt, hpre, hpost⟩
      · exact ⟨[], s, rest, rfl, by rw [hstep, heq], h, by simp, hall⟩
      · refine ⟨s :: pre, x, post, by simp [hl], by rw [hstep, heq], lt_trans hlt h, ?_, hpost⟩
        intro t ht
        rcases List.mem_cons.mp ht with rfl | ht
        · exact hlt
        · exact hpre t ht
    · have hstep : closestLoop distanceTo cityCoord (s :: rest) (c, m) =
          closestLoop distanceTo cityCoord rest (c, m) := by
        simp only [closestLoop]
        exact if_neg h
      rcases ih c m with ⟨heq, hall⟩ | ⟨pre, x, post, hl, heq, hlt, hpre, hpost⟩
      · left
        refine ⟨by rw [hstep, heq], ?_⟩
        intro t ht
        rcases List.mem_cons.mp ht with rfl | ht
        · exact not_lt.mp h
        · exact hall t ht
      · right
        refine ⟨s :: pre, x, post, by simp [hl], by rw [hstep, heq], hlt, ?_, hpost⟩
        intro t ht
        rcases List.mem_cons.mp ht with rfl | ht
        · exact lt_of_lt_of_le hlt (not_lt.mp h)
        · exact hpre t ht

/-- On a catalog with a station closer than `DBL_MAX`, the scan selects the
first station of least distance. -/
theorem closestStation_first_min (distanceTo : QGeoCoordinate → QGeoCoordinate → Double)
    (cityCoord : QGeoCoordinate) (allStations : List Station)
    (hfin : ∃ s ∈ allStations, stationDistance distanceTo cityCoord s < DBL_MAX) :
    ∃ pre x post, allStations = pre ++ x :: post ∧
      closestStation distanceTo cityCoord allStations = some x ∧
      (∀ s ∈ pre, stationDistance distanceTo cityCoord x <
        stationDistance distanceTo cityCoord s) ∧
      (∀ s ∈ post, stationDistance distanceTo cityCoord x ≤
        stationDistance distanceTo cityCoord s) := by
  rcases closestLoop_spec distanceTo cityCoord allStations none DBL_MAX with
    ⟨_, hall⟩ | ⟨pre, x, post, hl, heq, _, hpre, hpost⟩
  · obtain ⟨s, hs, hlt⟩ := hfin
    exact absurd hlt (not_lt.mpr (hall s hs))
  · exact ⟨pre, x, post, hl, by simp [closestStation, heq], hpre, hpost⟩

/-- The scan does not look at the flags: on the catalog with all flags reset
it selects the reset copy of the station it selects on the catalog. -/
theorem closestLoop_reset (distanceTo : QGeoCoordinate → QGeoCoordinate → Double)
    (cityCoord : QGeoCoordinate) :
    ∀ (l : List Station) (c : Option Station) (m : Double),
      closestLoop distanceTo cityCoord (l.map (fun s => { s with isSearched := false }))
          (c.map (fun s => { s with isSearched := false }), m) =
        ((closestLoop distanceTo cityCoord l (c, m)).1.map
            (fun s => { s with isSearched := false }),
          (closestLoop distanceTo cityCoord l (c, m)).2) := by
  intro l
  induction l with
  | nil => intro c m; rfl
  | cons s rest ih =>
    intro c m
    by_cases h : distanceTo cityCoord ⟨s.lat, s.lon⟩ < m
    · simp only [List.map_cons, closestLoop, if_pos h]
      exact ih (some s) _
    · simp only [List.map_cons, closestLoop, if_neg h]
      exact ih c m

theorem closestStation_reset (distanceTo : QGeoCoordinate → QGeoCoordinate → Double)
    (cityCoord : QGeoCoordinate) (l : List Station) :
    closestStation distanceTo cityCoord (l.map (fun s => { s with isSearched := false })) =
      (closestStation distanceTo cityCoord l).map (fun s => { s with isSearched := false }) := by
  unfold closestStation
  have := closestLoop_reset distanceTo cityCoord l none DBL_MAX
  simp only [Option.map_none'] at this
  rw [this]

/-- The state after the exact-match loop when no station lies in the searched city. -/
theorem afterExactMatch_no_match (toLower : QString → QString) (w : MainWindow)
    (lat lon : Double) (searchedCity : QString)
    (hno : ∀ s ∈ w.m_allStations, QString.simplified (toLower s.cityName) ≠
      QString.simplified (toLower searchedCity)) :
    (afterExactMatch toLower w lat lon searchedCity).m_stations = [] ∧
    (afterExactMatch toLower w lat lon searchedCity).m_allStations =
      w.m_allStations.map (fun s => { s with isSearched := false }) := by
  have hnil : w.m_allStations.filter (inSearchedCity toLower searchedCity) = [] := by
    rw [List.filter_eq_nil_iff]
    intro s hs
    simpa [inSearchedCity] using hno s hs
  constructor
  · rw [afterExactMatch_stations, hnil]
    rfl
  · rw [afterExactMatch_allStations, hnil]
    simp [flagIds_nil]

/-! ## City search: the claims -/

/-- C1. Exact-match search. When some catalog station lies in the searched
city (city names compared after `toLower` and `simplified`), the result list
`m_stations` after `onGeocodeReply` consists of copies (flag set) of exactly
the catalog stations of that city, in catalog order; and a query with the same
normal form, whatever point the geocoder resolved it to, gives the same list. -/
theorem exact_match_result_list (toLower : QString → QString)
    (distanceTo : QGeoCoordinate → QGeoCoordinate → Double) (w : MainWindow)
    (lat lon : Double) (more : List (Double × Double)) (searchedCity : QString)
    (hmatch : ∃ s ∈ w.m_allStations, QString.simplified (toLower s.cityName) =
      QString.simplified (toLower searchedCity)) :
    (onGeocodeReply toLower distanceTo w (GeocodeReply.results ((lat, lon) :: more))
        searchedCity).m_stations =
      (w.m_allStations.filter (fun s =>
        decide (QString.simplified (toLower s.cityName) =
          QString.simplified (toLower searchedCity)))).map
        (fun s => { s with isSearched := true }) ∧
    ∀ (otherCity : QString) (lat2 lon2 : Double) (more2 : List (Double × Double)),
      QString.simplified (toLower otherCity) = QString.simplified (toLower searchedCity) →
      (onGeocodeReply toLower distanceTo w (GeocodeReply.results ((lat2, lon2) :: more2))
          otherCity).m_stations =
        (onGeocodeReply toLower distanceTo w (GeocodeReply.results ((lat, lon) :: more))
          searchedCity).m_stations := by
  have key : ∀ (city : QString) (la lo : Double) (mo : List (Double × Double)),
      QString.simplified (toLower city) = QString.simplified (toLower searchedCity) →
      (onGeocodeReply toLower distanceTo w (GeocodeReply.results ((la, lo) :: mo))
          city).m_stations =
        (w.m_allStations.filter (fun s =>
          decide (QString.simplified (toLower s.cityName) =
            QString.simplified (toLower searchedCity)))).map
          (fun s => { s with isSearched := true }) := by
    intro city la lo mo hcity
    have hm : ∃ s ∈ w.m_allStations, QString.simplified (toLower s.cityName) =
        QString.simplified (toLower city) := by
      obtain ⟨s, hs, h⟩ := hmatch
      exact ⟨s, hs, by rw [h, hcity]⟩
    rw [onGeocodeReply_exact toLower distanceTo w la lo mo city hm]
    show (afterExactMatch toLower w la lo city).m_stations = _
    rw [afterExactMatch_stations]
    have hfun : inSearchedCity toLower city = fun s =>
        decide (QString.simplified (toLower s.cityName) =
          QString.simplified (toLower searchedCity)) := by
      funext s
      simp only [inSearchedCity, hcity]
    rw [hfun]
  refine ⟨key searchedCity lat lon more rfl, ?_⟩
  intro otherCity lat2 lon2 more2 h
  rw [key otherCity lat2 lon2 more2 h, key searchedCity lat lon more rfl]

/-- C1, on the example catalog: the query `"  WARSAW "` finds the two Warsaw
stations, as does the query `"warsaw"`. -/
theorem exact_match_result_list_witness :
    (∃ s ∈ exampleWindow.m_allStations, QString.simplified (asciiToLower s.cityName) =
      QString.simplified (asciiToLower "  WARSAW ")) ∧
    ((onGeocodeReply asciiToLower exampleDistance exampleWindow
        (GeocodeReply.results [(52, 21)]) "  WARSAW ").m_stations =
      (exampleWindow.m_allStations.filter (fun s =>
        decide (QString.simplified (asciiToLower s.cityName) =
          QString.simplified (asciiToLower "  WARSAW ")))).map
        (fun s => { s with isSearched := true }) ∧
    ∀ (otherCity : QString) (lat2 lon2 : Double) (more2 : List (Double × Double)),
      QString.simplified (asciiToLower otherCity) =
        QString.simplified (asciiToLower "  WARSAW ") →
      (onGeocodeReply asciiToLower exampleDistance exampleWindow
          (GeocodeReply.results ((lat2, lon2) :: more2)) otherCity).m_stations =
        (onGeocodeReply asciiToLower exampleDistance exampleWindow
          (GeocodeReply.results [(52, 21)]) "  WARSAW ").m_stations) :=
  ⟨by decide,
    exact_match_result_list asciiToLower exampleDistance exampleWindow 52 21 []
      "  WARSAW " (by decide)⟩

/-- C2. Match flags after an exact-match search. With unique station ids and
at least one station in the searched city, the catalog after `onGeocodeReply`
is the catalog before it with `isSearched` set to true on exactly the stations
of the searched city and to false on every other station, whatever the flags
were before; no other field and no position changes. -/
theorem exact_match_flags (toLower : QString → QString)
    (distanceTo : QGeoCoordinate → QGeoCoordinate → Double) (w : MainWindow)
    (lat lon : Double) (more : List (Double × Double)) (searchedCity : QString)
    (hids : (w.m_allStations.map Station.stationId).Nodup)
    (hmatch : ∃ s ∈ w.m_allStations, QString.simplified (toLower s.cityName) =
      QString.simplified (toLower searchedCity)) :
    (onGeocodeReply toLower distanceTo w (GeocodeReply.results ((lat, lon) :: more))
        searchedCity).m_allStations =
      w.m_allStations.map (fun s =>
        { s with isSearched := decide (QString.simplified (toLower s.cityName) =
            QString.simplified (toLower searchedCity)) }) := by
  rw [onGeocodeReply_exact toLower distanceTo w lat lon more searchedCity hmatch]
  show (afterExactMatch toLower w lat lon searchedCity).m_allStations = _
  rw [afterExactMatch_allStations]
  apply List.map_congr_left
  intro s hs
  by_cases hcity : QString.simplified (toLower s.cityName) =
      QString.simplified (toLower searchedCity)
  · have hin : s.stationId ∈ (w.m_allStations.filter
        (inSearchedCity toLower searchedCity)).map Station.stationId :=
      List.mem_map.mpr ⟨s, List.mem_filter.mpr ⟨hs, by simp [inSearchedCity, hcity]⟩, rfl⟩
    simp [flagIds, hin, hcity]
  · have hnot : s.stationId ∉ (w.m_allStations.filter
        (inSearchedCity toLower searchedCity)).map Station.stationId := by
      intro hin
      obtain ⟨t, ht, hid⟩ := List.mem_map.mp hin
      obtain ⟨htmem, htcity⟩ := List.mem_filter.mp ht
      have : t = s := List.inj_on_of_nodup_map hids htmem hs hid
      subst this
      simp [inSearchedCity] at htcity
      exact hcity htcity
    simp [flagIds, hnot, hcity]

/-- C2, on the example catalog: after the search for `"  WARSAW "` the two
Warsaw stations are flagged and the Krakow station, flagged before, is not. -/
theorem exact_match_flags_witness :
    (exampleWindow.m_allStations.map Station.stationId).Nodup ∧
    (∃ s ∈ exampleWindow.m_allStations, QString.simplified (asciiToLower s.cityName) =
      QString.simplified (asciiToLower "  WARSAW ")) ∧
    (onGeocodeReply asciiToLower exampleDistance exampleWindow
        (GeocodeReply.results [(52, 21)]) "  WARSAW ").m_allStations =
      exampleWindow.m_allStations.map (fun s =>
        { s with isSearched := decide (QString.simplified (asciiToLower s.cityName) =
            QString.simplified (asciiToLower "  WARSAW ")) }) :=
  ⟨by decide, by decide,
    exact_match_flags asciiToLower exampleDistance exampleWindow 52 21 [] "  WARSAW "
      (by decide) (by decide)⟩

/-- The slot when no station lies in the searched city and some station is
closer than `DBL_MAX`: the scan stops on the first station of least distance,
whose copy becomes the only result and whose position the map center. -/
theorem onGeocodeReply_fallback (toLower : QString → QString)
    (distanceTo : QGeoCoordinate → QGeoCoordinate → Double) (w : MainWindow)
    (lat lon : Double) (more : List (Double × Double)) (searchedCity : QString)
    (hno : ∀ s ∈ w.m_allStations, QString.simplified (toLower s.cityName) ≠
      QString.simplified (toLower searchedCity))
    (hfin : ∃ s ∈ w.m_allStations, stationDistance distanceTo ⟨lat, lon⟩ s < DBL_MAX) :
    ∃ pre x post, w.m_allStations = pre ++ x :: post ∧
      closestStation distanceTo ⟨lat, lon⟩ w.m_allStations = some x ∧
      (∀ s ∈ pre, stationDistance distanceTo ⟨lat, lon⟩ x <
        stationDistance distanceTo ⟨lat, lon⟩ s) ∧
      (∀ s ∈ post, stationDistance distanceTo ⟨lat, lon⟩ x ≤
        stationDistance distanceTo ⟨lat, lon⟩ s) ∧
      (onGeocodeReply toLower distanceTo w (GeocodeReply.results ((lat, lon) :: more))
        searchedCity).m_stations = [{ x with isSearched := true }] ∧
      (onGeocodeReply toLower distanceTo w (GeocodeReply.results ((lat, lon) :: more))
        searchedCity).m_mapCenter = ⟨x.lat, x.lon⟩ ∧
      (onGeocodeReply toLower distanceTo w (GeocodeReply.results ((lat, lon) :: more))
        searchedCity).m_status = nearestMessage searchedCity x.cityName := by
  obtain ⟨pre, x, post, hl, hsel, hpre, hpost⟩ :=
    closestStation_first_min distanceTo ⟨lat, lon⟩ w.m_allStations hfin
  obtain ⟨hst, hall⟩ := afterExactMatch_no_match toLower w lat lon searchedCity hno
  refine ⟨pre, x, post, hl, hsel, hpre, hpost, ?_, ?_, ?_⟩ <;>
    · rw [onGeocodeReply_results, hst, hall, closestStation_reset, hsel]
      rfl

/-- C3. Fallback search. On a non-empty catalog with no station in the
searched city and every station at a distance below `DBL_MAX` from the
resolved point, `onGeocodeReply` leaves a result list of exactly one station:
the copy of a catalog station `x` whose distance to the resolved point is at
most that of every catalog station; the map center is the coordinate built
from the latitude and longitude of `x`, not the resolved point, and the
status names the city of `x`. -/
theorem fallback_nearest_station (toLower : QString → QString)
    (distanceTo : QGeoCoordinate → QGeoCoordinate → Double) (w : MainWindow)
    (lat lon : Double) (more : List (Double × Double)) (searchedCity : QString)
    (hne : w.m_allStations ≠ [])
    (hno : ∀ s ∈ w.m_allStations, QString.simplified (toLower s.cityName) ≠
      QString.simplified (toLower searchedCity))
    (hfin : ∀ s ∈ w.m_allStations, distanceTo ⟨lat, lon⟩ ⟨s.lat, s.lon⟩ < DBL_MAX) :
    ∃ x ∈ w.m_allStations,
      (onGeocodeReply toLower distanceTo w (GeocodeReply.results ((lat, lon) :: more))
        searchedCity).m_stations = [{ x with isSearched := true }] ∧
      (∀ s ∈ w.m_allStations,
        distanceTo ⟨lat, lon⟩ ⟨x.lat, x.lon⟩ ≤ distanceTo ⟨lat, lon⟩ ⟨s.lat, s.lon⟩) ∧
      (onGeocodeReply toLower distanceTo w (GeocodeReply.results ((lat, lon) :: more))
        searchedCity).m_mapCenter = ⟨x.lat, x.lon⟩ ∧
      (onGeocodeReply toLower distanceTo w (GeocodeReply.results ((lat, lon) :: more))
        searchedCity).m_status = nearestMessage searchedCity x.cityName := by
  obtain ⟨s0, hs0⟩ := List.exists_mem_of_ne_nil _ hne
  obtain ⟨pre, x, post, hl, _, hpre, hpost, hst, hcenter, hstatus⟩ :=
    onGeocodeReply_fallback toLower distanceTo w lat lon more searchedCity hno
      ⟨s0, hs0, hfin s0 hs0⟩
  have hx : x ∈ w.m_allStations := by rw [hl]; simp
  refine ⟨x, hx, hst, ?_, hcenter, hstatus⟩
  intro s hs
  rw [hl] at hs
  rcases List.mem_append.mp hs with h | h
  · exact le_of_lt (hpre s h)
  · rcases List.mem_cons.mp h with rfl | h
    · exact le_refl _
    · exact hpost s h

/-- C3, on the example catalog: no station lies in Zabierzow, and every
distance from the resolved point (50, 19) is below `DBL_MAX`. -/
theorem fallback_nearest_station_witness :
    exampleWindow.m_allStations ≠ [] ∧
    (∀ s ∈ exampleWindow.m_allStations, QString.simplified (asciiToLower s.cityName) ≠
      QString.simplified (asciiToLower "Zabierzow")) ∧
    (∀ s ∈ exampleWindow.m_allStations,
      exampleDistance ⟨50, 19⟩ ⟨s.lat, s.lon⟩ < DBL_MAX) ∧
    ∃ x ∈ exampleWindow.m_allStations,
      (onGeocodeReply asciiToLower exampleDistance exampleWindow
        (GeocodeReply.results [(50, 19)]) "Zabierzow").m_stations =
          [{ x with isSearched := true }] ∧
      (∀ s ∈ exampleWindow.m_allStations,
        exampleDistance ⟨50, 19⟩ ⟨x.lat, x.lon⟩ ≤ exampleDistance ⟨50, 19⟩ ⟨s.lat, s.lon⟩) ∧
      (onGeocodeReply asciiToLower exampleDistance exampleWindow
        (GeocodeReply.results [(50, 19)]) "Zabierzow").m_mapCenter = ⟨x.lat, x.lon⟩ ∧
      (onGeocodeReply asciiToLower exampleDistance exampleWindow
        (GeocodeReply.results [(50, 19)]) "Zabierzow").m_status =
          nearestMessage "Zabierzow" x.cityName :=
  ⟨by decide, by decide, by decide,
    fallback_nearest_station asciiToLower exampleDistance exampleWindow 50 19 []
      "Zabierzow" (by decide) (by decide) (by decide)⟩

/-- C4. Fallback tie-break. On a non-empty catalog with no station in the
searched city and every station at a distance below `DBL_MAX`, the
nearest-station scan of `onGeocodeReply` selects the station at an index `i`
of the catalog such that no station is closer and every index `j` whose
station is at the same distance satisfies `i ≤ j`: among the stations of
least distance, the first in catalog order. It is the copy of that station
that the slot leaves as the result. These two conditions determine `i` from
the catalog and the resolved point alone. -/
theorem fallback_tie_break (toLower : QString → QString)
    (distanceTo : QGeoCoordinate → QGeoCoordinate → Double) (w : MainWindow)
    (lat lon : Double) (more : List (Double × Double)) (searchedCity : QString)
    (hne : w.m_allStations ≠ [])
    (hno : ∀ s ∈ w.m_allStations, QString.simplified (toLower s.cityName) ≠
      QString.simplified (toLower searchedCity))
    (hfin : ∀ s ∈ w.m_allStations, distanceTo ⟨lat, lon⟩ ⟨s.lat, s.lon⟩ < DBL_MAX) :
    ∃ (i : Nat) (x : Station), w.m_allStations[i]? = some x ∧
      closestStation distanceTo ⟨lat, lon⟩ w.m_allStations = some x ∧
      (onGeocodeReply toLower distanceTo w (GeocodeReply.results ((lat, lon) :: more))
        searchedCity).m_stations = [{ x with isSearched := true }] ∧
      (∀ s ∈ w.m_allStations,
        distanceTo ⟨lat, lon⟩ ⟨x.lat, x.lon⟩ ≤ distanceTo ⟨lat, lon⟩ ⟨s.lat, s.lon⟩) ∧
      (∀ (j : Nat) (y : Station), w.m_allStations[j]? = some y →
        distanceTo ⟨lat, lon⟩ ⟨y.lat, y.lon⟩ = distanceTo ⟨lat, lon⟩ ⟨x.lat, x.lon⟩ →
        i ≤ j) := by
  obtain ⟨s0, hs0⟩ := List.exists_mem_of_ne_nil _ hne
  obtain ⟨pre, x, post, hl, hsel, hpre, hpost, hst, _, _⟩ :=
    onGeocodeReply_fallback toLower distanceTo w lat lon more searchedCity hno
      ⟨s0, hs0, hfin s0 hs0⟩
  refine ⟨pre.length, x, ?_, hsel, hst, ?_, ?_⟩
  · rw [hl, List.getElem?_append_right (le_refl _)]
    simp
  · intro s hs
    rw [hl] at hs
    rcases List.mem_append.mp hs with h | h
    · exact le_of_lt (hpre s h)
    · rcases List.mem_cons.mp h with rfl | h
      · exact le_refl _
      · exact hpost s h
  · intro j y hj hd
    by_contra hlt
    have hjlt : j < pre.length := Nat.lt_of_not_le hlt
    rw [hl, List.getElem?_append_left hjlt] at hj
    have hy : y ∈ pre := List.getElem?_mem hj
    have := hpre y hy
    simp only [stationDistance] at this
    rw [hd] at this
    exact lt_irrefl _ this

/-- C4, on a catalog with two stations at the least distance from the
resolved point (50, 20). -/
theorem fallback_tie_break_witness :
    tieWindow.m_allStations ≠ [] ∧
    (∀ s ∈ tieWindow.m_allStations, QString.simplified (asciiToLower s.cityName) ≠
      QString.simplified (asciiToLower "Zabierzow")) ∧
    (∀ s ∈ tieWindow.m_allStations, exampleDistance ⟨50, 20⟩ ⟨s.lat, s.lon⟩ < DBL_MAX) ∧
    ∃ (i : Nat) (x : Station), tieWindow.m_allStations[i]? = some x ∧
      closestStation exampleDistance ⟨50, 20⟩ tieWindow.m_allStations = some x ∧
      (onGeocodeReply asciiToLower exampleDistance tieWindow
        (GeocodeReply.results [(50, 20)]) "Zabierzow").m_stations =
          [{ x with isSearched := true }] ∧
      (∀ s ∈ tieWindow.m_allStations,
        exampleDistance ⟨50, 20⟩ ⟨x.lat, x.lon⟩ ≤ exampleDistance ⟨50, 20⟩ ⟨s.lat, s.lon⟩) ∧
      (∀ (j : Nat) (y : Station), tieWindow.m_allStations[j]? = some y →
        exampleDistance ⟨50, 20⟩ ⟨y.lat, y.lon⟩ =
          exampleDistance ⟨50, 20⟩ ⟨x.lat, x.lon⟩ → i ≤ j) :=
  ⟨by decide, by decide, by decide,
    fallback_tie_break asciiToLower exampleDistance tieWindow 50 20 [] "Zabierzow"
      (by decide) (by decide) (by decide)⟩

/-! ## Status texts -/

theorem notFoundMessage_ne_foundMessage (searchedCity otherCity : QString) (count : Nat) :
    notFoundMessage searchedCity ≠ foundMessage count otherCity := by
  intro h
  have hd := congrArg String.data h
  simp [notFoundMessage, foundMessage, String.data_append] at hd

theorem notFoundMessage_ne_nearestMessage (searchedCity closestCity : QString) :
    notFoundMessage searchedCity ≠ nearestMessage searchedCity closestCity := by
  intro h
  have hd := congrArg String.data h
  simp [notFoundMessage, nearestMessage, String.data_append] at hd

/-- C5. Empty catalog. On an empty catalog, for every query and every
resolved point, `onGeocodeReply` leaves the result list empty, the scan
selects no station (the catalog stays empty and the map center is the
resolved point), and the status is the text "Nie znaleziono stacji w
(city).", which differs from the text reporting found stations, for every
count and city, and from the text reporting the nearest station for the same
query, for every city of a nearest station. -/
theorem empty_catalog_search (toLower : QString → QString)
    (distanceTo : QGeoCoordinate → QGeoCoordinate → Double) (w : MainWindow)
    (lat lon : Double) (more : List (Double × Double)) (searchedCity : QString)
    (hempty : w.m_allStations = []) :
    (onGeocodeReply toLower distanceTo w (GeocodeReply.results ((lat, lon) :: more))
        searchedCity).m_stations = [] ∧
    closestStation distanceTo ⟨lat, lon⟩ w.m_allStations = none ∧
    (onGeocodeReply toLower distanceTo w (GeocodeReply.results ((lat, lon) :: more))
        searchedCity).m_allStations = [] ∧
    (onGeocodeReply toLower distanceTo w (GeocodeReply.results ((lat, lon) :: more))
        searchedCity).m_mapCenter = ⟨lat, lon⟩ ∧
    (onGeocodeReply toLower distanceTo w (GeocodeReply.results ((lat, lon) :: more))
        searchedCity).m_status = "Nie znaleziono stacji w " ++ searchedCity ++ "." ∧
    (∀ (count : Nat) (otherCity : QString),
      (onGeocodeReply toLower distanceTo w (GeocodeReply.results ((lat, lon) :: more))
        searchedCity).m_status ≠ foundMessage count otherCity) ∧
    (∀ closestCity : QString,
      (onGeocodeReply toLower distanceTo w (GeocodeReply.results ((lat, lon) :: more))
        searchedCity).m_status ≠ nearestMessage searchedCity closestCity) := by
  have hres : onGeocodeReply toLower distanceTo w
      (GeocodeReply.results ((lat, lon) :: more)) searchedCity =
      { w with m_mapCenter := ⟨lat, lon⟩, m_stations := [], m_allStations := [],
               m_status := notFoundMessage searchedCity } := by
    cases w
    simp only at hempty
    subst hempty
    rfl
  rw [hres, hempty]
  refine ⟨rfl, rfl, rfl, rfl, rfl, ?_, ?_⟩
  · intro count otherCity
    exact notFoundMessage_ne_foundMessage searchedCity otherCity count
  · intro closestCity
    exact notFoundMessage_ne_nearestMessage searchedCity closestCity

/-- C5, on the example state with its catalog emptied. -/
theorem empty_catalog_search_witness :
    ({ exampleWindow with m_allStations := [] } : MainWindow).m_allStations = [] ∧
    (onGeocodeReply asciiToLower exampleDistance { exampleWindow with m_allStations := [] }
        (GeocodeReply.results [(50, 19)]) "Zabierzow").m_stations = [] ∧
    closestStation exampleDistance ⟨50, 19⟩
      ({ exampleWindow with m_allStations := [] } : MainWindow).m_allStations = none ∧
    (onGeocodeReply asciiToLower exampleDistance { exampleWindow with m_allStations := [] }
        (GeocodeReply.results [(50, 19)]) "Zabierzow").m_allStations = [] ∧
    (onGeocodeReply asciiToLower exampleDistance { exampleWindow with m_allStations := [] }
        (GeocodeReply.results [(50, 19)]) "Zabierzow").m_mapCenter = ⟨50, 19⟩ ∧
    (onGeocodeReply asciiToLower exampleDistance { exampleWindow with m_allStations := [] }
        (GeocodeReply.results [(50, 19)]) "Zabierzow").m_status =
      "Nie znaleziono stacji w " ++ "Zabierzow" ++ "." ∧
    (∀ (count : Nat) (otherCity : QString),
      (onGeocodeReply asciiToLower exampleDistance { exampleWindow with m_allStations := [] }
        (GeocodeReply.results [(50, 19)]) "Zabierzow").m_status ≠
          foundMessage count otherCity) ∧
    (∀ closestCity : QString,
      (onGeocodeReply asciiToLower exampleDistance { exampleWindow with m_allStations := [] }
        (GeocodeReply.results [(50, 19)]) "Zabierzow").m_status ≠
          nearestMessage "Zabierzow" closestCity) :=
  ⟨rfl,
    empty_catalog_search asciiToLower exampleDistance
      { exampleWindow with m_allStations := [] } 50 19 [] "Zabierzow" rfl⟩

/-- C6. Geocoder failure short-circuits the search. When the geocode reply
is a network error, or its result array is empty, `onGeocodeReply` returns the
state it was given with a new status message and nothing else changed: the
catalog with its `isSearched` flags, the result list `m_stations` and the map
center are as before the call. -/
theorem geocode_failure_changes_status_only (toLower : QString → QString)
    (distanceTo : QGeoCoordinate → QGeoCoordinate → Double) (w : MainWindow)
    (searchedCity : QString) :
    (∀ errorString : QString,
      onGeocodeReply toLower distanceTo w (GeocodeReply.error errorString) searchedCity =
        { w with m_status := "Błąd wyszukiwania: " ++ errorString } ∧
      (onGeocodeReply toLower distanceTo w (GeocodeReply.error errorString)
        searchedCity).m_allStations = w.m_allStations ∧
      (onGeocodeReply toLower distanceTo w (GeocodeReply.error errorString)
        searchedCity).m_stations = w.m_stations ∧
      (onGeocodeReply toLower distanceTo w (GeocodeReply.error errorString)
        searchedCity).m_mapCenter = w.m_mapCenter) ∧
    onGeocodeReply toLower distanceTo w (GeocodeReply.results []) searchedCity =
      { w with m_status := "Nie znaleziono miasta." } ∧
    (onGeocodeReply toLower distanceTo w (GeocodeReply.results []) searchedCity).m_allStations =
      w.m_allStations ∧
    (onGeocodeReply toLower distanceTo w (GeocodeReply.results []) searchedCity).m_stations =
      w.m_stations ∧
    (onGeocodeReply toLower distanceTo w (GeocodeReply.results []) searchedCity).m_mapCenter =
      w.m_mapCenter :=
  ⟨fun _ => ⟨rfl, rfl, rfl, rfl⟩, rfl, rfl, rfl, rfl⟩

/-! ## Lemmas on `QMap` -/

theorem QMap.value_insert_self {V : Type} (m : QMap V) (key : QString) (v : V) :
    QMap.value (QMap.insert m key v) key = some v := by
  induction m with
  | nil => simp [QMap.insert, QMap.value]
  | cons e rest ih =>
    obtain ⟨k, x⟩ := e
    unfold QMap.insert
    by_cases h1 : key.data < k.data
    · simp [h1, QMap.value]
    · by_cases h2 : k = key
      · simp [h1, h2, QMap.value]
      · simp [h1, h2, QMap.value, ih]

theorem QMap.value_insert_of_ne {V : Type} (m : QMap V) (key other : QString) (v : V)
    (h : other ≠ key) :
    QMap.value (QMap.insert m key v) other = QMap.value m other := by
  induction m with
  | nil => simp [QMap.insert, QMap.value, Ne.symm h]
  | cons e rest ih =>
    obtain ⟨k, x⟩ := e
    unfold QMap.insert
    by_cases h1 : key.data < k.data
    · simp [h1, QMap.value, Ne.symm h]
    · by_cases h2 : k = key
      · subst h2
        simp [h1, QMap.value, Ne.symm h]
      · by_cases h3 : k = other
        · subst h3
          simp [h1, h2, QMap.value]
        · simp [h1, h2, h3, QMap.value, ih]

theorem cachedData_subscript (sensorData : QMap QVariant) (key other : QString) :
    cachedData (QMap.subscript sensorData key QVariant.invalid).2 other =
      cachedData sensorData other := by
  unfold QMap.subscript
  cases hv : QMap.value sensorData key with
  | some v => rfl
  | none =>
    by_cases h : other = key
    · subst h
      simp [cachedData, QMap.value_insert_self, hv, QVariant.toList]
    · simp [cachedData, QMap.value_insert_of_ne _ _ _ _ h]

theorem subscript_toList (sensorData : QMap QVariant) (key : QString) :
    (QMap.subscript sensorData key QVariant.invalid).1.toList = cachedData sensorData key := by
  unfold QMap.subscript cachedData
  cases hv : QMap.value sensorData key with
  | some v => rfl
  | none => rfl

/-! ## Lemmas on saving -/

/-- The `sensors` array `saveStationData` builds: one entry per descriptor of
`m_sensors`, in order, with the data points cached under the sensor's key. -/
theorem saveSensorsLoop_fst :
    ∀ (sensors : List SensorInfo) (sensorData : QMap QVariant) (acc : List SensorRecord),
      (saveSensorsLoop sensors sensorData acc).1 =
        acc ++ sensors.map (fun sensorInfo =>
          { sensorId := sensorInfo.sensorId, paramName := sensorInfo.paramName,
            measurements := measurementsArray
              (cachedData sensorData (QString.number sensorInfo.sensorId)) }) := by
  intro sensors
  induction sensors with
  | nil => intro sensorData acc; simp [saveSensorsLoop]
  | cons info rest ih =>
    intro sensorData acc
    simp only [saveSensorsLoop, ih, cachedData_subscript, subscript_toList]
    simp

/-- The store after a save that finds the station and opens the file. -/
theorem saveStationData_dir (w : MainWindow) (dir : ArchiveDir) (now1 now2 : QDateTime)
    (stationId : Int) (cityName address : QString) (station : Station)
    (hfound : w.m_allStations.find? (fun s => s.stationId == stationId) = some station) :
    (saveStationData w dir now1 now2 true stationId cityName address).2 =
      QMap.insert dir (archiveFileName stationId now2)
        (FileContent.object (savedRecord w station now1 stationId cityName address)) := by
  simp only [saveStationData, hfound]
  rfl

/-- The store after a save that finds the station and cannot open the file. -/
theorem saveStationData_dir_closed (w : MainWindow) (dir : ArchiveDir) (now1 now2 : QDateTime)
    (stationId : Int) (cityName address : QString) (station : Station)
    (hfound : w.m_allStations.find? (fun s => s.stationId == stationId) = some station) :
    (saveStationData w dir now1 now2 false stationId cityName address).2 = dir := by
  simp only [saveStationData, hfound]
  rfl

/-! ## The archive: the claims -/

/-- C7. Archive round-trip, at a cache with a gap: station 1 is saved with
sensor 42 holding the data points (10:00, 12) and (09:00, null), and the
record is loaded back by the station id and the save date of the record. The
sensor list comes back as saved, the cache entry of sensor 42 comes back with
the value 0 in place of the null value. -/
theorem archive_round_trip_null_value :
    gapWindow.m_sensors = [{ sensorId := 42, paramName := "PM10" }] ∧
    QMap.value gapWindow.m_sensorData (QString.number 42) =
      some (QVariant.list
        [{ date := "2025-04-21 10:00:00", value := some 12 },
         { date := "2025-04-21 09:00:00", value := none }]) ∧
    (loadArchivedStationData
        (saveStationData gapWindow [] noon noon true 1 "Warsaw" "ul. Marszalkowska").1
        (saveStationData gapWindow [] noon noon true 1 "Warsaw" "ul. Marszalkowska").2
        1 noon.toISODate).m_sensors = [{ sensorId := 42, paramName := "PM10" }] ∧
    QMap.value
      (loadArchivedStationData
        (saveStationData gapWindow [] noon noon true 1 "Warsaw" "ul. Marszalkowska").1
        (saveStationData gapWindow [] noon noon true 1 "Warsaw" "ul. Marszalkowska").2
        1 noon.toISODate).m_sensorData (QString.number 42) =
      some (QVariant.list
        [{ date := "2025-04-21 10:00:00", value := some 12 },
         { date := "2025-04-21 09:00:00", value := some 0 }]) := by
  decide

/-- C8, as stated, fails: station 1 is saved twice within one second, first
with the address "ul. A", then with the address "ul. B". Both saves produce
the same file name and both report success; after the second save the file
holds the second record and the first record is stored under no name. -/
theorem save_same_second_overwrites :
    archiveFileName 1 noonLater = archiveFileName 1 noon ∧
    QMap.value (saveStationData gapWindow [] noon noon true 1 "Warsaw" "ul. A").2
        (archiveFileName 1 noon) =
      some (FileContent.object (savedRecord gapWindow
        { stationId := 1, stationName := "Marszalkowska", cityName := "Warsaw",
          address := "ul. Marszalkowska", lat := 52, lon := 21, isSearched := false }
        noon 1 "Warsaw" "ul. A")) ∧
    (saveStationData
        (saveStationData gapWindow [] noon noon true 1 "Warsaw" "ul. A").1
        (saveStationData gapWindow [] noon noon true 1 "Warsaw" "ul. A").2
        noonLater noonLater true 1 "Warsaw" "ul. B").1.m_status =
      "Dane zapisano do pliku: " ++ filePath (archiveFileName 1 noon) ∧
    (∀ e ∈ (saveStationData
        (saveStationData gapWindow [] noon noon true 1 "Warsaw" "ul. A").1
        (saveStationData gapWindow [] noon noon true 1 "Warsaw" "ul. A").2
        noonLater noonLater true 1 "Warsaw" "ul. B").2,
      e.2 ≠ FileContent.object (savedRecord gapWindow
        { stationId := 1, stationName := "Marszalkowska", cityName := "Warsaw",
          address := "ul. Marszalkowska", lat := 52, lon := 21, isSearched := false }
        noon 1 "Warsaw" "ul. A")) := by
  decide

/-- C8, amended. For every archive store and every state whose catalog holds
the station: when the file cannot be opened for writing the store is left as
it was; when it can, the store afterwards holds under the file name of the
save, `station_(id)_(yyyyMMdd_HHmmss).json`, the record of this save, whatever
it held under that name before, and holds under every other name what it held
before. -/
theorem save_writes_record_under_key (w : MainWindow) (dir : ArchiveDir)
    (now1 now2 : QDateTime) (stationId : Int) (cityName address : QString) (station : Station)
    (hfound : w.m_allStations.find? (fun s => s.stationId == stationId) = some station) :
    (saveStationData w dir now1 now2 false stationId cityName address).2 = dir ∧
    QMap.value (saveStationData w dir now1 now2 true stationId cityName address).2
        (archiveFileName stationId now2) =
      some (FileContent.object (savedRecord w station now1 stationId cityName address)) ∧
    ∀ name : QString, name ≠ archiveFileName stationId now2 →
      QMap.value (saveStationData w dir now1 now2 true stationId cityName address).2 name =
        QMap.value dir name := by
  refine ⟨saveStationData_dir_closed w dir now1 now2 stationId cityName address station hfound,
    ?_, ?_⟩
  · rw [saveStationData_dir w dir now1 now2 stationId cityName address station hfound]
    exact QMap.value_insert_self _ _ _
  · intro name hname
    rw [saveStationData_dir w dir now1 now2 stationId cityName address station hfound]
    exact QMap.value_insert_of_ne _ _ _ _ hname

/-- C8 amended, on the store left by a first save of station 1 at `noon`. -/
theorem save_writes_record_under_key_witness :
    (gapWindow.m_allStations.find? (fun s => s.stationId == 1) =
      some { stationId := 1, stationName := "Marszalkowska", cityName := "Warsaw",
             address := "ul. Marszalkowska", lat := 52, lon := 21, isSearched := false }) ∧
    (saveStationData gapWindow
        (saveStationData gapWindow [] noon noon true 1 "Warsaw" "ul. A").2
        noonLater noonLater false 1 "Warsaw" "ul. B").2 =
      (saveStationData gapWindow [] noon noon true 1 "Warsaw" "ul. A").2 ∧
    QMap.value (saveStationData gapWindow
        (saveStationData gapWindow [] noon noon true 1 "Warsaw" "ul. A").2
        noonLater noonLater true 1 "Warsaw" "ul. B").2
        (archiveFileName 1 noonLater) =
      some (FileContent.object (savedRecord gapWindow
        { stationId := 1, stationName := "Marszalkowska", cityName := "Warsaw",
          address := "ul. Marszalkowska", lat := 52, lon := 21, isSearched := false }
        noonLater 1 "Warsaw" "ul. B")) ∧
    ∀ name : QString, name ≠ archiveFileName 1 noonLater →
      QMap.value (saveStationData gapWindow
          (saveStationData gapWindow [] noon noon true 1 "Warsaw" "ul. A").2
          noonLater noonLater true 1 "Warsaw" "ul. B").2 name =
        QMap.value (saveStationData gapWindow [] noon noon true 1 "Warsaw" "ul. A").2 name :=
  ⟨by decide,
    save_writes_record_under_key gapWindow
      (saveStationData gapWindow [] noon noon true 1 "Warsaw" "ul. A").2
      noonLater noonLater 1 "Warsaw" "ul. B" _ (by decide)⟩

/-- C9, at a store that holds one record of station 1, saved at 12:00:00:
loading station 1 with the save date 12:00:01, which no record has, returns
the controller state it was given, the status message included. -/
theorem load_unknown_save_date_is_silent :
    (∀ e ∈ (saveStationData gapWindow [] noon noon true 1 "Warsaw" "ul. A").2,
      ∀ jsonObj, e.2 = FileContent.object jsonObj →
        jsonObj.saveDate ≠ "2025-04-21T12:00:01") ∧
    loadArchivedStationData
        (saveStationData gapWindow [] noon noon true 1 "Warsaw" "ul. A").1
        (saveStationData gapWindow [] noon noon true 1 "Warsaw" "ul. A").2
        1 "2025-04-21T12:00:01" =
      (saveStationData gapWindow [] noon noon true 1 "Warsaw" "ul. A").1 := by
  constructor
  · intro e he jsonObj hobj
    have hlist : (saveStationData gapWindow [] noon noon true 1 "Warsaw" "ul. A").2 =
        [(archiveFileName 1 noon, FileContent.object (savedRecord gapWindow
          { stationId := 1, stationName := "Marszalkowska", cityName := "Warsaw",
            address := "ul. Marszalkowska", lat := 52, lon := 21, isSearched := false }
          noon 1 "Warsaw" "ul. A"))] := by decide
    rw [hlist] at he
    simp only [List.mem_singleton] at he
    subst he
    simp only [FileContent.object.injEq] at hobj
    subst hobj
    decide
  · decide

/-- C10, as stated, fails: with an empty sensor list and a cache that holds an
entry for sensor 42, the record written for station 1 has an empty `sensors`
array, so no entry for sensor 42. -/
theorem save_skips_unlisted_cached_sensor :
    QMap.contains staleWindow.m_sensorData (QString.number 42) = true ∧
    QMap.value (saveStationData staleWindow [] noon noon true 1 "Warsaw" "ul. A").2
        (archiveFileName 1 noon) =
      some (FileContent.object
        { stationId := 1, stationName := "Marszalkowska", cityName := "Warsaw",
          address := "ul. A", latitude := 52, longitude := 21,
          saveDate := "2025-04-21T12:00:00", sensors := [] }) := by
  decide

/-- C10, amended. For every state whose catalog holds the station, the record
written by `saveStationData` has one sensor entry for every descriptor of the
sensor list `m_sensors`, in list order, with the id and the parameter name of
the descriptor; the measurement list of the entry has one measurement for
every data point the cache holds under the key of that id (none when the
cache has no entry), in the same order, with the same date and, for a data
point whose value is not null, the same value. -/
theorem save_snapshots_listed_sensors (w : MainWindow) (dir : ArchiveDir)
    (now1 now2 : QDateTime) (stationId : Int) (cityName address : QString)
    (hcat : ∃ s ∈ w.m_allStations, s.stationId = stationId) :
    ∃ jsonObj : ArchiveRecord,
      QMap.value (saveStationData w dir now1 now2 true stationId cityName address).2
        (archiveFileName stationId now2) = some (FileContent.object jsonObj) ∧
      List.Forall₂
        (fun (sensorInfo : SensorInfo) (sensorObj : SensorRecord) =>
          sensorObj.sensorId = sensorInfo.sensorId ∧
          sensorObj.paramName = sensorInfo.paramName ∧
          List.Forall₂
            (fun (dataPoint : Measurement) (measurementObj : MeasurementRecord) =>
              measurementObj.date = dataPoint.date ∧
              ∀ d : Double, dataPoint.value = some d → measurementObj.value = d)
            (cachedData w.m_sensorData (QString.number sensorInfo.sensorId))
            sensorObj.measurements)
        w.m_sensors jsonObj.sensors := by
  obtain ⟨s, hs, hid⟩ := hcat
  have hsome : (w.m_allStations.find? (fun s => s.stationId == stationId)).isSome = true := by
    rw [List.find?_isSome]
    exact ⟨s, hs, by simp [hid]⟩
  obtain ⟨station, hfound⟩ := Option.isSome_iff_exists.mp hsome
  refine ⟨savedRecord w station now1 stationId cityName address, ?_, ?_⟩
  · rw [saveStationData_dir w dir now1 now2 stationId cityName address station hfound]
    exact QMap.value_insert_self _ _ _
  · show List.Forall₂ _ w.m_sensors (saveSensorsLoop w.m_sensors w.m_sensorData []).1
    rw [saveSensorsLoop_fst, List.nil_append, List.forall₂_map_right_iff, List.forall₂_same]
    intro sensorInfo _
    refine ⟨rfl, rfl, ?_⟩
    unfold measurementsArray
    rw [List.forall₂_map_right_iff, List.forall₂_same]
    intro dataPoint _
    refine ⟨rfl, ?_⟩
    intro d hd
    simp [hd, toDouble]

/-- C10 amended, on the example state with a cached sensor. -/
theorem save_snapshots_listed_sensors_witness :
    (∃ s ∈ gapWindow.m_allStations, s.stationId = 1) ∧
    ∃ jsonObj : ArchiveRecord,
      QMap.value (saveStationData gapWindow [] noon noon true 1 "Warsaw" "ul. A").2
        (archiveFileName 1 noon) = some (FileContent.object jsonObj) ∧
      List.Forall₂
        (fun (sensorInfo : SensorInfo) (sensorObj : SensorRecord) =>
          sensorObj.sensorId = sensorInfo.sensorId ∧
          sensorObj.paramName = sensorInfo.paramName ∧
          List.Forall₂
            (fun (dataPoint : Measurement) (measurementObj : MeasurementRecord) =>
              measurementObj.date = dataPoint.date ∧
              ∀ d : Double, dataPoint.value = some d → measurementObj.value = d)
            (cachedData gapWindow.m_sensorData (QString.number sensorInfo.sensorId))
            sensorObj.measurements)
        gapWindow.m_sensors jsonObj.sensors :=
  ⟨by decide,
    save_snapshots_listed_sensors gapWindow [] noon noon 1 "Warsaw" "ul. A" (by decide)⟩

/-! ## More lemmas on `QMap` -/

theorem QMap.value_remove_self {V : Type} (m : QMap V) (key : QString) :
    QMap.value (QMap.remove m key) key = none := by
  induction m with
  | nil => rfl
  | cons e rest ih =>
    obtain ⟨k, x⟩ := e
    by_cases h : k = key
    · simpa [QMap.remove, List.filter_cons, h] using ih
    · simpa [QMap.remove, List.filter_cons, h, QMap.value] using ih

theorem QMap.value_remove_of_ne {V : Type} (m : QMap V) (key other : QString)
    (h : other ≠ key) :
    QMap.value (QMap.remove m key) other = QMap.value m other := by
  induction m with
  | nil => rfl
  | cons e rest ih =>
    obtain ⟨k, x⟩ := e
    by_cases hk : k = key
    · subst hk
      simpa [QMap.remove, List.filter_cons, QMap.value, Ne.symm h] using ih
    · by_cases ho : k = other
      · subst ho
        simp [QMap.remove, List.filter_cons, hk, QMap.value]
      · simpa [QMap.remove, List.filter_cons, hk, QMap.value, ho] using ih

theorem QMap.remove_of_not_contains {V : Type} (m : QMap V) (key : QString)
    (h : QMap.contains m key = false) : QMap.remove m key = m := by
  induction m with
  | nil => rfl
  | cons e rest ih =>
    obtain ⟨k, x⟩ := e
    by_cases hk : k = key
    · simp [QMap.contains, QMap.value, hk] at h
    · have hrest : QMap.contains rest key = false := by
        simpa [QMap.contains, QMap.value, hk] using h
      have := ih hrest
      simp only [QMap.remove] at this
      simp [QMap.remove, List.filter_cons, hk, this]

theorem QMap.insert_insert {V : Type} (m : QMap V) (key : QString) (v1 v2 : V) :
    QMap.insert (QMap.insert m key v1) key v2 = QMap.insert m key v2 := by
  induction m with
  | nil => simp [QMap.insert]
  | cons e rest ih =>
    obtain ⟨k, x⟩ := e
    by_cases h1 : key.data < k.data
    · simp [QMap.insert, h1]
    · by_cases h2 : k = key
      · subst h2
        simp [QMap.insert]
      · simp [QMap.insert, h1, h2, ih]

theorem QMap.mem_of_value {V : Type} (m : QMap V) (key : QString) (v : V)
    (h : QMap.value m key = some v) : (key, v) ∈ m := by
  induction m with
  | nil => simp [QMap.value] at h
  | cons e rest ih =>
    obtain ⟨k, x⟩ := e
    by_cases hk : k = key
    · subst hk
      simp only [QMap.value, if_true, Option.some.injEq] at h
      subst h
      exact List.mem_cons_self _ _
    · simp only [QMap.value, hk, if_false] at h
      exact List.mem_cons_of_mem _ (ih h)

theorem QMap.value_eq_none_of_lt {V : Type} (m : QMap V) (key : QString)
    (h : ∀ e ∈ m, key.data < e.1.data) : QMap.value m key = none := by
  cases hv : QMap.value m key with
  | none => rfl
  | some v =>
    have := h _ (QMap.mem_of_value m key v hv)
    exact absurd this (lt_irrefl _)

theorem QMap.mem_insert {V : Type} (m : QMap V) (key : QString) (v : V) (e : QString × V)
    (h : e ∈ QMap.insert m key v) : e = (key, v) ∨ e ∈ m := by
  induction m with
  | nil =>
    simp only [QMap.insert, List.mem_singleton] at h
    exact Or.inl h
  | cons e0 rest ih =>
    obtain ⟨k, x⟩ := e0
    by_cases h1 : key.data < k.data
    · simp only [QMap.insert, h1, if_true, List.mem_cons] at h
      rcases h with h | h | h
      · exact Or.inl h
      · exact Or.inr (by rw [h]; exact List.mem_cons_self _ _)
      · exact Or.inr (List.mem_cons_of_mem _ h)
    · by_cases h2 : k = key
      · subst h2
        simp only [QMap.insert, h1, if_true, if_false, List.mem_cons] at h
        rcases h with h | h
        · exact Or.inl h
        · exact Or.inr (List.mem_cons_of_mem _ h)
      · simp only [QMap.insert, h1, h2, if_false, List.mem_cons] at h
        rcases h with h | h
        · exact Or.inr (by rw [h]; exact List.mem_cons_self _ _)
        · rcases ih h with h | h
          · exact Or.inl h
          · exact Or.inr (List.mem_cons_of_mem _ h)

/-- Insertion keeps the keys strictly increasing. -/
theorem QMap.WellFormed.insert {V : Type} (m : QMap V) (key : QString) (v : V)
    (h : QMap.WellFormed m) : QMap.WellFormed (QMap.insert m key v) := by
  induction m with
  | nil => simp [QMap.WellFormed, QMap.insert]
  | cons e0 rest ih =>
    obtain ⟨k, x⟩ := e0
    have hcons := List.pairwise_cons.mp h
    by_cases h1 : key.data < k.data
    · simp only [QMap.insert, h1, if_true]
      refine List.pairwise_cons.mpr ⟨?_, h⟩
      intro e he
      rcases List.mem_cons.mp he with rfl | he
      · exact h1
      · exact lt_trans h1 (hcons.1 e he)
    · by_cases h2 : k = key
      · subst h2
        simp only [QMap.insert, h1, if_true, if_false]
        exact List.pairwise_cons.mpr ⟨hcons.1, hcons.2⟩
      · simp only [QMap.insert, h1, h2, if_false]
        refine List.pairwise_cons.mpr ⟨?_, ih hcons.2⟩
        intro e he
        rcases QMap.mem_insert rest key v e he with rfl | he
        · rcases lt_trichotomy key.data k.data with h3 | h3 | h3
          · exact absurd h3 h1
          · exact absurd (String.ext h3).symm h2
          · exact h3
        · exact hcons.1 e he

/-- Removal keeps the keys strictly increasing. -/
theorem QMap.WellFormed.remove {V : Type} (m : QMap V) (key : QString)
    (h : QMap.WellFormed m) : QMap.WellFormed (QMap.remove m key) :=
  List.Pairwise.filter _ h

/-- Two maps with strictly increasing keys and the same value under every
key are the same list of entries. -/
theorem QMap.ext_of_wellFormed {V : Type} :
    ∀ (m1 m2 : QMap V), QMap.WellFormed m1 → QMap.WellFormed m2 →
      (∀ key, QMap.value m1 key = QMap.value m2 key) → m1 = m2 := by
  intro m1
  induction m1 with
  | nil =>
    intro m2 _ _ hv
    cases m2 with
    | nil => rfl
    | cons e2 r2 =>
      obtain ⟨k2, v2⟩ := e2
      have := hv k2
      simp [QMap.value] at this
  | cons e1 r1 ih =>
    obtain ⟨k1, v1⟩ := e1
    intro m2 h1 h2 hv
    cases m2 with
    | nil =>
      have := hv k1
      simp [QMap.value] at this
    | cons e2 r2 =>
      obtain ⟨k2, v2⟩ := e2
      have hc1 := List.pairwise_cons.mp h1
      have hc2 := List.pairwise_cons.mp h2
      have hk : k1 = k2 := by
        by_contra hne
        have e1 := hv k1
        simp only [QMap.value, if_true, Ne.symm hne, if_false] at e1
        have e2 := hv k2
        simp only [QMap.value, if_true, hne, if_false] at e2
        have l1 := hc2.1 _ (QMap.mem_of_value r2 k1 v1 e1.symm)
        have l2 := hc1.1 _ (QMap.mem_of_value r1 k2 v2 e2)
        exact lt_asymm l1 l2
      subst hk
      have hval : v1 = v2 := by
        have := hv k1
        simpa [QMap.value] using this
      subst hval
      have hrest : r1 = r2 := by
        apply ih r2 hc1.2 hc2.2
        intro key
        by_cases hkey : k1 = key
        · subst hkey
          rw [QMap.value_eq_none_of_lt r1 k1 hc1.1, QMap.value_eq_none_of_lt r2 k1 hc2.1]
        · have := hv key
          simpa [QMap.value, hkey] using this
      rw [hrest]

/-! ## Saving an unknown station: the claim -/

/-- C11. Save of an unknown station fails cleanly. When no catalog station
has the given id, `saveStationData` returns the state it was given with the
status "Błąd: Stacja o ID (id) nie znaleziona." and the archive directory it
was given: no record is written, and the archive summaries, the sensor list,
the sensor cache, the catalog and the map center are unchanged, whether or
not a file could have been opened. -/
theorem save_unknown_station (w : MainWindow) (dir : ArchiveDir) (now1 now2 : QDateTime)
    (openOk : Bool) (stationId : Int) (cityName address : QString)
    (hno : ∀ s ∈ w.m_allStations, s.stationId ≠ stationId) :
    saveStationData w dir now1 now2 openOk stationId cityName address =
      ({ w with m_status := "Błąd: Stacja o ID " ++ QString.number stationId ++
          " nie znaleziona." }, dir) ∧
    (saveStationData w dir now1 now2 openOk stationId cityName address).2 = dir ∧
    (saveStationData w dir now1 now2 openOk stationId cityName address).1.m_archivedStations =
      w.m_archivedStations ∧
    (saveStationData w dir now1 now2 openOk stationId cityName address).1.m_sensors =
      w.m_sensors ∧
    (saveStationData w dir now1 now2 openOk stationId cityName address).1.m_sensorData =
      w.m_sensorData ∧
    (saveStationData w dir now1 now2 openOk stationId cityName address).1.m_allStations =
      w.m_allStations ∧
    (saveStationData w dir now1 now2 openOk stationId cityName address).1.m_mapCenter =
      w.m_mapCenter := by
  have hfind : w.m_allStations.find? (fun s => s.stationId == stationId) = none := by
    rw [List.find?_eq_none]
    intro s hs
    simpa using hno s hs
  have hres : saveStationData w dir now1 now2 openOk stationId cityName address =
      ({ w with m_status := "Błąd: Stacja o ID " ++ QString.number stationId ++
          " nie znaleziona." }, dir) := by
    simp only [saveStationData, hfind]
  rw [hres]
  exact ⟨rfl, rfl, rfl, rfl, rfl, rfl, rfl⟩

/-- C11, on the example state: no station of the example catalog has the id 12. -/
theorem save_unknown_station_witness :
    (∀ s ∈ gapWindow.m_allStations, s.stationId ≠ 12) ∧
    (saveStationData gapWindow [] noon noon true 12 "Warsaw" "ul. A" =
      ({ gapWindow with m_status := "Błąd: Stacja o ID " ++ QString.number 12 ++
          " nie znaleziona." }, []) ∧
    (saveStationData gapWindow [] noon noon true 12 "Warsaw" "ul. A").2 = [] ∧
    (saveStationData gapWindow [] noon noon true 12 "Warsaw" "ul. A").1.m_archivedStations =
      gapWindow.m_archivedStations ∧
    (saveStationData gapWindow [] noon noon true 12 "Warsaw" "ul. A").1.m_sensors =
      gapWindow.m_sensors ∧
    (saveStationData gapWindow [] noon noon true 12 "Warsaw" "ul. A").1.m_sensorData =
      gapWindow.m_sensorData ∧
    (saveStationData gapWindow [] noon noon true 12 "Warsaw" "ul. A").1.m_allStations =
      gapWindow.m_allStations ∧
    (saveStationData gapWindow [] noon noon true 12 "Warsaw" "ul. A").1.m_mapCenter =
      gapWindow.m_mapCenter) :=
  ⟨by decide,
    save_unknown_station gapWindow [] noon noon true 12 "Warsaw" "ul. A" (by decide)⟩

/-! ## Catalog load: the claims -/

theorem stationsLoop_eq : ∀ (stations : List StationEntry) (allStations : List Station),
    stationsLoop stations allStations = allStations ++ stations.map stationOfEntry := by
  intro stations
  induction stations with
  | nil => intro allStations; simp [stationsLoop]
  | cons obj rest ih =>
    intro allStations
    simp [stationsLoop, ih]

/-- C12, as stated, fails: the second entry of the example listing has no
`id`, and the catalog built from the listing holds a station for it, with the
id 0, between the stations of the first and the third entry. -/
theorem catalog_keeps_entry_without_id :
    exampleListing[1]? =
      some { id := none, stationName := some "Bez numeru", cityName := some "Poznan",
             addressStreet := none, gegrLat := some 52, gegrLon := some 17 } ∧
    (onStationsReply initialWindow
        (StationsReply.body (some exampleListing))).m_allStations.length = 3 ∧
    (onStationsReply initialWindow (StationsReply.body (some exampleListing))).m_allStations[1]? =
      some { stationId := 0, stationName := "Bez numeru", cityName := "Poznan",
             address := "", lat := 52, lon := 17, isSearched := false } := by
  decide

/-- C12, amended. For every station listing delivered by the remote source
and every prior state, the catalog built by `onStationsReply` holds exactly
one station for every entry of the listing, in listing order, unflagged, with
every missing field defaulted: the id to 0, the names and the address to the
empty string, the coordinates to zero. Nothing else of the state changes. -/
theorem catalog_one_station_per_entry (w : MainWindow) (listing : List StationEntry) :
    onStationsReply w (StationsReply.body (some listing)) =
      { w with
        m_allStations := listing.map (fun obj =>
          { stationId := obj.id.getD 0
            stationName := obj.stationName.getD ""
            cityName := obj.cityName.getD ""
            address := obj.addressStreet.getD ""
            lat := obj.gegrLat.getD 0
            lon := obj.gegrLon.getD 0
            isSearched := false }) } := by
  simp only [onStationsReply, StationsReply.array, stationsLoop_eq, List.nil_append]
  rfl

/-- C13, at a reply whose body is not a JSON array. From the state the
constructor leaves, `onStationsReply` returns that state unchanged, the
status message included; from a state whose catalog holds three stations, it
returns a state with an empty catalog and the same status message. -/
theorem catalog_load_malformed_body :
    onStationsReply initialWindow (StationsReply.body none) = initialWindow ∧
    exampleWindow.m_allStations.length = 3 ∧
    (onStationsReply exampleWindow (StationsReply.body none)).m_allStations = [] ∧
    (onStationsReply exampleWindow (StationsReply.body none)).m_status =
      exampleWindow.m_status :=
  ⟨rfl, rfl, rfl, rfl⟩

/-- The slot on a transport error: the status message is set and nothing else. -/
theorem onStationsReply_error (w : MainWindow) (errorString : QString) :
    onStationsReply w (StationsReply.error errorString) =
      { w with m_status := "Błąd pobierania stacji: " ++ errorString } :=
  rfl

/-! ## The sensor cache: the claims -/

theorem sensorDataLoop_eq : ∀ (vs acc : List Measurement),
    sensorDataLoop vs acc = acc ++ vs := by
  intro vs
  induction vs with
  | nil => intro acc; simp [sensorDataLoop]
  | cons dataPoint rest ih =>
    intro acc
    simp [sensorDataLoop, ih]

/-- The cache after a finished measurement request. -/
theorem onSensorDataReply_sensorData (w : MainWindow) (reply : SensorDataReply)
    (sensorId : Int) :
    (onSensorDataReply w reply sensorId).m_sensorData =
      match reply with
      | SensorDataReply.error => QMap.remove w.m_sensorData (QString.number sensorId)
      | SensorDataReply.values vs =>
        QMap.insert w.m_sensorData (QString.number sensorId) (QVariant.list vs) := by
  cases reply with
  | error => rfl
  | values vs => simp [onSensorDataReply, sensorDataLoop_eq]

/-- The entry the cache holds under a key after a finished measurement request. -/
theorem onSensorDataReply_value (w : MainWindow) (reply : SensorDataReply)
    (sensorId : Int) (key : QString) :
    QMap.value (onSensorDataReply w reply sensorId).m_sensorData key =
      if key = QString.number sensorId then replyEntry reply
      else QMap.value w.m_sensorData key := by
  rw [onSensorDataReply_sensorData]
  by_cases h : key = QString.number sensorId
  · subst h
    cases reply with
    | error => simp [replyEntry, QMap.value_remove_self]
    | values vs => simp [replyEntry, QMap.value_insert_self]
  · cases reply with
    | error => simp [h, QMap.value_remove_of_ne _ _ _ h]
    | values vs => simp [h, QMap.value_insert_of_ne _ _ _ _ h]

theorem onSensorDataReply_wellFormed (w : MainWindow) (reply : SensorDataReply)
    (sensorId : Int) (h : QMap.WellFormed w.m_sensorData) :
    QMap.WellFormed (onSensorDataReply w reply sensorId).m_sensorData := by
  rw [onSensorDataReply_sensorData]
  cases reply with
  | error => exact QMap.WellFormed.remove _ _ h
  | values vs => exact QMap.WellFormed.insert _ _ _ h

/-- The members other than the cache after a finished measurement request. -/
theorem onSensorDataReply_frame (w : MainWindow) (reply : SensorDataReply) (sensorId : Int) :
    onSensorDataReply w reply sensorId =
      { w with m_sensorData := (onSensorDataReply w reply sensorId).m_sensorData } := by
  cases reply <;> rfl

/-- C14. Sensor cache replace-on-fetch. For every sensor id, every prior
state and every payload of a successful measurement fetch, the cache entry of
that id after `onSensorDataReply` is the list of the payload's data points in
the order delivered, a null value kept as null. After two successive
successful fetches for the same id with payloads `p1` then `p2`, the entry is
the list `p2`, and the whole cache is the one a single fetch with `p2` leaves. -/
theorem sensor_cache_replace_on_fetch (w : MainWindow) (sensorId : Int)
    (p1 p2 : List Measurement) :
    QMap.value (onSensorDataReply w (SensorDataReply.values p1) sensorId).m_sensorData
        (QString.number sensorId) = some (QVariant.list p1) ∧
    QMap.value
        (onSensorDataReply (onSensorDataReply w (SensorDataReply.values p1) sensorId)
          (SensorDataReply.values p2) sensorId).m_sensorData
        (QString.number sensorId) = some (QVariant.list p2) ∧
    (onSensorDataReply (onSensorDataReply w (SensorDataReply.values p1) sensorId)
        (SensorDataReply.values p2) sensorId).m_sensorData =
      (onSensorDataReply w (SensorDataReply.values p2) sensorId).m_sensorData := by
  refine ⟨?_, ?_, ?_⟩
  · rw [onSensorDataReply_value]
    simp [replyEntry]
  · rw [onSensorDataReply_value]
    simp [replyEntry]
  · simp only [onSensorDataReply_sensorData]
    exact QMap.insert_insert _ _ _ _

/-- C15. Fetch failure clears the stale entry. For every sensor id and every
prior cache, after `onSensorDataReply` handles a failed measurement fetch for
that id the cache has no entry under the key of that id. -/
theorem fetch_failure_clears_entry (w : MainWindow) (sensorId : Int) :
    QMap.value (onSensorDataReply w SensorDataReply.error sensorId).m_sensorData
        (QString.number sensorId) = none ∧
    QMap.contains (onSensorDataReply w SensorDataReply.error sensorId).m_sensorData
        (QString.number sensorId) = false := by
  have h : QMap.value (onSensorDataReply w SensorDataReply.error sensorId).m_sensorData
      (QString.number sensorId) = none := by
    rw [onSensorDataReply_value]
    simp [replyEntry]
  exact ⟨h, by simp [QMap.contains, h]⟩

/-- C16. Fetches for different sensors do not interfere. For distinct sensor
ids `a` and `b`, the completion of a measurement fetch for `a`, successful
with any payload or failed, leaves the cache entry of `b`, present or absent,
as it was. The completions of a fetch for `a` and of a fetch for `b` leave the
same entry under every key in either order, and, the cache being a map (keys
strictly increasing), the same controller state. -/
theorem fetches_do_not_interfere (w : MainWindow) (a b : Int) (hab : a ≠ b) :
    (∀ ra : SensorDataReply,
      QMap.value (onSensorDataReply w ra a).m_sensorData (QString.number b) =
        QMap.value w.m_sensorData (QString.number b)) ∧
    (∀ (ra rb : SensorDataReply) (key : QString),
      QMap.value (onSensorDataReply (onSensorDataReply w ra a) rb b).m_sensorData key =
        QMap.value (onSensorDataReply (onSensorDataReply w rb b) ra a).m_sensorData key) ∧
    (QMap.WellFormed w.m_sensorData → ∀ ra rb : SensorDataReply,
      onSensorDataReply (onSensorDataReply w ra a) rb b =
        onSensorDataReply (onSensorDataReply w rb b) ra a) := by
  have hkey : QString.number b ≠ QString.number a := fun h =>
    hab (QString.number_injective h).symm
  have hlookup : ∀ (ra rb : SensorDataReply) (key : QString),
      QMap.value (onSensorDataReply (onSensorDataReply w ra a) rb b).m_sensorData key =
        QMap.value (onSensorDataReply (onSensorDataReply w rb b) ra a).m_sensorData key := by
    intro ra rb key
    simp only [onSensorDataReply_value]
    by_cases h1 : key = QString.number b
    · subst h1
      simp [hkey]
    · simp [h1]
  refine ⟨?_, hlookup, ?_⟩
  · intro ra
    rw [onSensorDataReply_value]
    simp [hkey]
  · intro hwf ra rb
    have hcache : (onSensorDataReply (onSensorDataReply w ra a) rb b).m_sensorData =
        (onSensorDataReply (onSensorDataReply w rb b) ra a).m_sensorData :=
      QMap.ext_of_wellFormed _ _
        (onSensorDataReply_wellFormed _ rb b (onSensorDataReply_wellFormed w ra a hwf))
        (onSensorDataReply_wellFormed _ ra a (onSensorDataReply_wellFormed w rb b hwf))
        (hlookup ra rb)
    rw [onSensorDataReply_frame (onSensorDataReply w ra a) rb b,
      onSensorDataReply_frame (onSensorDataReply w rb b) ra a, hcache,
      onSensorDataReply_frame w ra a, onSensorDataReply_frame w rb b]

/-- C16, on the example state with a cached sensor 42: a fetch for sensor 5
and a fetch for sensor 43. -/
theorem fetches_do_not_interfere_witness :
    (5 : Int) ≠ 43 ∧ QMap.WellFormed gapWindow.m_sensorData ∧
    (∀ ra : SensorDataReply,
      QMap.value (onSensorDataReply gapWindow ra 5).m_sensorData (QString.number 43) =
        QMap.value gapWindow.m_sensorData (QString.number 43)) ∧
    (∀ (ra rb : SensorDataReply) (key : QString),
      QMap.value (onSensorDataReply (onSensorDataReply gapWindow ra 5) rb 43).m_sensorData
          key =
        QMap.value (onSensorDataReply (onSensorDataReply gapWindow rb 43) ra 5).m_sensorData
          key) ∧
    (QMap.WellFormed gapWindow.m_sensorData → ∀ ra rb : SensorDataReply,
      onSensorDataReply (onSensorDataReply gapWindow ra 5) rb 43 =
        onSensorDataReply (onSensorDataReply gapWindow rb 43) ra 5) :=
  ⟨by decide, by simp [QMap.WellFormed, gapWindow],
    fetches_do_not_interfere gapWindow 5 43 (by decide)⟩

/-- C17. Explicit eviction. For every state and every sensor id,
`removeSensorData` leaves no entry under the key of that id, leaves the entry
under every other key as it was, and changes no other member; when the cache
has no entry under the key of the id, the state after the call is the state
before it, so the cache has the same entries and the same size. -/
theorem remove_sensor_data_evicts (w : MainWindow) (sensorId : Int) :
    QMap.value (removeSensorData w sensorId).m_sensorData (QString.number sensorId) = none ∧
    (∀ key : QString, key ≠ QString.number sensorId →
      QMap.value (removeSensorData w sensorId).m_sensorData key =
        QMap.value w.m_sensorData key) ∧
    removeSensorData w sensorId =
      { w with m_sensorData := (removeSensorData w sensorId).m_sensorData } ∧
    (QMap.contains w.m_sensorData (QString.number sensorId) = false →
      removeSensorData w sensorId = w ∧
      (removeSensorData w sensorId).m_sensorData.length = w.m_sensorData.length) := by
  refine ⟨QMap.value_remove_self _ _, ?_, rfl, ?_⟩
  · intro key hkey
    exact QMap.value_remove_of_ne _ _ _ hkey
  · intro hno
    have hstate : removeSensorData w sensorId = w := by
      simp only [removeSensorData, QMap.remove_of_not_contains _ _ hno]
    rw [hstate]
    exact ⟨rfl, rfl⟩

/-- C17, on the cache of the unit test `testSensorData`: it holds one entry,
under the key `test`, and none under the key of the sensor id 999. -/
theorem remove_sensor_data_evicts_witness :
    QMap.contains testSensorDataWindow.m_sensorData (QString.number 999) = false ∧
    testSensorDataWindow.m_sensorData.length = 1 ∧
    QMap.value (removeSensorData testSensorDataWindow 999).m_sensorData
      (QString.number 999) = none ∧
    (∀ key : QString, key ≠ QString.number 999 →
      QMap.value (removeSensorData testSensorDataWindow 999).m_sensorData key =
        QMap.value testSensorDataWindow.m_sensorData key) ∧
    removeSensorData testSensorDataWindow 999 =
      { testSensorDataWindow with
        m_sensorData := (removeSensorData testSensorDataWindow 999).m_sensorData } ∧
    (QMap.contains testSensorDataWindow.m_sensorData (QString.number 999) = false →
      removeSensorData testSensorDataWindow 999 = testSensorDataWindow ∧
      (removeSensorData testSensorDataWindow 999).m_sensorData.length =
        testSensorDataWindow.m_sensorData.length) :=
  ⟨by decide, by decide, remove_sensor_data_evicts testSensorDataWindow 999⟩

/-! ## The search flag: the claim -/

/-- C18. The slot `updateStationSearchStatus(id, b)`. For every state, every
station id and every Boolean `b`, the state after the call is the state
before it with the catalog mapped, in place and in order, by the function
that sets `isSearched` to `b` on a station whose id is the given id and
returns every other station as it is: no other field of a station and no
other member changes. After a call with `true` and a call with `false` for
the same id, every station of that id is unflagged and every other station is
as it was before the two calls. -/
theorem update_station_search_status (w : MainWindow) (stationId : Int) (b : Bool) :
    updateStationSearchStatus w stationId b =
      { w with
        m_allStations := w.m_allStations.map (fun s =>
          if s.stationId = stationId then { s with isSearched := b } else s) } ∧
    updateStationSearchStatus (updateStationSearchStatus w stationId true) stationId false =
      { w with
        m_allStations := w.m_allStations.map (fun s =>
          if s.stationId = stationId then { s with isSearched := false } else s) } := by
  have hone : ∀ (w0 : MainWindow) (c : Bool), updateStationSearchStatus w0 stationId c =
      { w0 with
        m_allStations := w0.m_allStations.map (fun s =>
          if s.stationId = stationId then { s with isSearched := c } else s) } := by
    intro w0 c
    simp only [updateStationSearchStatus, Station.setIsSearched_eq]
  refine ⟨hone w b, ?_⟩
  rw [hone (updateStationSearchStatus w stationId true) false, hone w true]
  simp only [List.map_map]
  congr 1
  apply List.map_congr_left
  intro s _
  by_cases h : s.stationId = stationId <;> simp [Function.comp, h]

end ApiGios
